import Mathlib

/-!
Shallow embedding of layersvt/device_simulation.cpp (the
VK_LAYER_LUNARG_device_simulation layer): the JsonLoader configuration
decoder, the PhysicalDeviceData capability record, and the registry read
path (EnumerateProperties / GetPhysicalDeviceQueueFamilyProperties).

JSON documents are modelled as an inductive tree mirroring jsoncpp's
Json::Value value types (github.com/open-source-parsers/jsoncpp, the
library the source includes).  The type-test predicates isInt, isUInt,
isUInt64, isDouble, isString follow jsoncpp's Value implementation,
including its numeric-range conditions.  Doubles are modelled as
rationals; the source only reads a numeric node after the corresponding
type test succeeded, and the decoded values the claims depend on are
exact integers, so no floating-point rounding is observable in the
properties proved here.

Machine integers: uint32 and uint64 destinations are modelled as Nat,
int32 as Int.  The jsoncpp type tests guarantee every value the loader
stores is within the destination's range, so no wrap-around arithmetic
occurs on the store paths (the one deliberate truncation, a uint8 store
in GetArray for pipelineCacheUUID, is modelled with an explicit % 256).
-/

-- JSON value model (jsoncpp Json::Value) --------------------------------------

inductive JsonType where
  | nullValue
  | intValue
  | uintValue
  | realValue
  | stringValue
  | booleanValue
  | arrayValue
  | objectValue
  deriving DecidableEq

inductive JsonValue where
  | nullVal
  | intVal (n : Int)        -- jsoncpp intValue, Int64 payload
  | uintVal (n : Nat)       -- jsoncpp uintValue, UInt64 payload
  | realVal (q : ℚ)         -- jsoncpp realValue (double), modelled exactly
  | stringVal (s : String)
  | boolVal (b : Bool)
  | arrayVal (elems : List JsonValue)
  | objectVal (members : List (String × JsonValue))

def JsonValue.typeOf : JsonValue → JsonType
  | .nullVal => .nullValue
  | .intVal _ => .intValue
  | .uintVal _ => .uintValue
  | .realVal _ => .realValue
  | .stringVal _ => .stringValue
  | .boolVal _ => .booleanValue
  | .arrayVal _ => .arrayValue
  | .objectVal _ => .objectValue

/-- Member access, parent[name] in jsoncpp: on an object returns the named
member or a null value when the member is absent; the loader only applies it
to nodes already checked to be objects (otherwise null is returned here). -/
def getMember (parent : JsonValue) (name : String) : JsonValue :=
  match parent with
  | .objectVal members => (members.lookup name).getD .nullVal
  | _ => .nullVal

/-- Index access, parent[index] in jsoncpp: on an array returns the element
or a null value when the index is out of range. -/
def getIndex (parent : JsonValue) (index : Nat) : JsonValue :=
  match parent with
  | .arrayVal elems => elems.getD index .nullVal
  | _ => .nullVal

-- jsoncpp numeric range constants
def jsonMinInt : Int := -2147483648
def jsonMaxInt : Int := 2147483647
def jsonMaxUInt : Int := 4294967295
def jsonMaxUInt64 : Int := 18446744073709551615

/-- Json::Value::isInt: an integral value representable as a 32-bit signed
integer.  A realValue qualifies when it is integral and in range. -/
def JsonValue.isInt : JsonValue → Bool
  | .intVal n => decide (jsonMinInt ≤ n ∧ n ≤ jsonMaxInt)
  | .uintVal n => decide ((n : Int) ≤ jsonMaxInt)
  | .realVal q => decide (q.den = 1 ∧ jsonMinInt ≤ q.num ∧ q.num ≤ jsonMaxInt)
  | _ => false

/-- Json::Value::isUInt: an integral value representable as a 32-bit unsigned
integer. -/
def JsonValue.isUInt : JsonValue → Bool
  | .intVal n => decide (0 ≤ n ∧ n ≤ jsonMaxUInt)
  | .uintVal n => decide ((n : Int) ≤ jsonMaxUInt)
  | .realVal q => decide (q.den = 1 ∧ 0 ≤ q.num ∧ q.num ≤ jsonMaxUInt)
  | _ => false

/-- Json::Value::isUInt64: an integral value representable as a 64-bit
unsigned integer. -/
def JsonValue.isUInt64 : JsonValue → Bool
  | .intVal n => decide (0 ≤ n)
  | .uintVal _ => true
  | .realVal q => decide (q.den = 1 ∧ 0 ≤ q.num ∧ q.num ≤ jsonMaxUInt64)
  | _ => false

/-- Json::Value::isDouble: any numeric value (intValue, uintValue or
realValue). -/
def JsonValue.isDouble : JsonValue → Bool
  | .intVal _ => true
  | .uintVal _ => true
  | .realVal _ => true
  | _ => false

def JsonValue.isString : JsonValue → Bool
  | .stringVal _ => true
  | _ => false

/-- C-style truncation toward zero of a rational, the value of the C integer
cast the conversions apply to a double; for an integral rational (den = 1)
this is the numerator. -/
def ratTrunc (q : ℚ) : Int :=
  if 0 ≤ q.num then ((q.num.toNat / q.den : Nat) : Int)
  else -(((-q.num).toNat / q.den : Nat) : Int)

/-- Json::Value::asInt on its non-throwing paths.  The type-gated GetValue
call sites reach it only after isInt succeeded, where it is exact (den = 1);
its failure conditions on other nodes are modelled by asIntExc below. -/
def JsonValue.asInt : JsonValue → Int
  | .nullVal => 0
  | .intVal n => n
  | .uintVal n => n
  | .realVal q => ratTrunc q
  | .boolVal b => if b then 1 else 0
  | _ => 0

/-- Json::Value::asUInt on its non-throwing paths (nonnegative after the
isUInt gate, so toNat is exact there; a real in range is truncated).  The
unchecked GetArray call sites are refined by the Checked variants below,
which use asUIntExc to model the exception this conversion raises. -/
def JsonValue.asUInt : JsonValue → Nat
  | .nullVal => 0
  | .intVal n => n.toNat
  | .uintVal n => n
  | .realVal q => (ratTrunc q).toNat
  | .boolVal b => if b then 1 else 0
  | _ => 0

/-- Json::Value::asUInt64 on its non-throwing paths, reached only after
isUInt64 succeeded. -/
def JsonValue.asUInt64 : JsonValue → Nat
  | .nullVal => 0
  | .intVal n => n.toNat
  | .uintVal n => n
  | .realVal q => (ratTrunc q).toNat
  | .boolVal b => if b then 1 else 0
  | _ => 0

/-- Json::Value::asFloat on its non-throwing paths, modelled as an exact
rational.  The type-gated GetValue site reaches it only after isDouble
succeeded; the unchecked GetArray site is refined by the Checked variant,
which uses asFloatExc to model the exception. -/
def JsonValue.asFloat : JsonValue → ℚ
  | .nullVal => 0
  | .intVal n => n
  | .uintVal n => n
  | .realVal q => q
  | .boolVal b => if b then 1 else 0
  | _ => 0

/-- Json::Value::asInt with its failure conditions: none models the jsoncpp
exception raised on a string, array or object node or an integer outside
signed 32-bit range; a real must be in range and is truncated. -/
def JsonValue.asIntExc : JsonValue → Option Int
  | .nullVal => some 0
  | .intVal n => if jsonMinInt ≤ n ∧ n ≤ jsonMaxInt then some n else none
  | .uintVal n => if (n : Int) ≤ jsonMaxInt then some n else none
  | .realVal q =>
      if (jsonMinInt : ℚ) ≤ q ∧ q ≤ (jsonMaxInt : ℚ) then some (ratTrunc q) else none
  | .boolVal b => some (if b then 1 else 0)
  | _ => none

/-- Json::Value::asCString, reached only after isString succeeded. -/
def JsonValue.asCString : JsonValue → String
  | .stringVal s => s
  | _ => ""

-- List helpers modelling in-place writes into fixed-capacity C arrays --------

/-- Positional copy of src over the leading entries of a fixed C array whose
remaining entries keep their prior contents.  It is meaningful only while
src fits the destination capacity: an over-long source overflows the C
array, after which the program has no defined behavior.  The Checked array
decoders below bound the source length by the destination capacity and
report failure beyond it; the total decoders using this function are their
values on the in-capacity paths. -/
def listOverlay {α : Type} (src dest : List α) : List α :=
  src ++ dest.drop src.length

/-- In-place elementwise update of the first n entries of a fixed C array:
entry i becomes f i (old entry i), entries at n and beyond are untouched.
The k argument is the index of the head of the remaining list. -/
def updateElemsFrom {α : Type} (f : Nat → α → α) (n : Nat) : Nat → List α → List α
  | _, [] => []
  | k, x :: xs => (if k < n then f k x else x) :: updateElemsFrom f n (k + 1) xs

-- Capability record (PhysicalDeviceData members) ------------------------------

structure VkExtent3D where
  width : Nat := 0
  height : Nat := 0
  depth : Nat := 0
  deriving DecidableEq

structure VkMemoryType where
  propertyFlags : Nat := 0
  heapIndex : Nat := 0
  deriving DecidableEq

structure VkMemoryHeap where
  size : Nat := 0       -- VkDeviceSize
  flags : Nat := 0
  deriving DecidableEq

/-- VkPhysicalDeviceMemoryProperties: the element arrays are fixed C arrays
of VK_MAX_MEMORY_TYPES = 32 and VK_MAX_MEMORY_HEAPS = 16 entries, zeroed at
record creation; the counts say how many leading entries are meaningful. -/
structure VkPhysicalDeviceMemoryProperties where
  memoryTypeCount : Nat := 0
  memoryTypes : List VkMemoryType := List.replicate 32 {}
  memoryHeapCount : Nat := 0
  memoryHeaps : List VkMemoryHeap := List.replicate 16 {}
  deriving DecidableEq

structure VkQueueFamilyProperties where
  queueFlags : Nat := 0
  queueCount : Nat := 0
  timestampValidBits : Nat := 0
  minImageTransferGranularity : VkExtent3D := {}
  deriving DecidableEq

structure VkPhysicalDeviceSparseProperties where
  residencyStandard2DBlockShape : Nat := 0             -- VkBool32
  residencyStandard2DMultisampleBlockShape : Nat := 0
  residencyStandard3DBlockShape : Nat := 0
  residencyAlignedMipSize : Nat := 0
  residencyNonResidentStrict : Nat := 0
  deriving DecidableEq

/-- VkPhysicalDeviceLimits, field order as in the Vulkan 1.0 header and in
JsonLoader::GetValue(VkPhysicalDeviceLimits).  uint32 and 64-bit unsigned
fields are Nat, int32 fields Int, float fields exact rationals; the
fixed-length C arrays are lists holding their zero-initialized capacity. -/
structure VkPhysicalDeviceLimits where
  maxImageDimension1D : Nat := 0
  maxImageDimension2D : Nat := 0
  maxImageDimension3D : Nat := 0
  maxImageDimensionCube : Nat := 0
  maxImageArrayLayers : Nat := 0
  maxTexelBufferElements : Nat := 0
  maxUniformBufferRange : Nat := 0
  maxStorageBufferRange : Nat := 0
  maxPushConstantsSize : Nat := 0
  maxMemoryAllocationCount : Nat := 0
  maxSamplerAllocationCount : Nat := 0
  bufferImageGranularity : Nat := 0       -- VkDeviceSize
  sparseAddressSpaceSize : Nat := 0       -- VkDeviceSize
  maxBoundDescriptorSets : Nat := 0
  maxPerStageDescriptorSamplers : Nat := 0
  maxPerStageDescriptorUniformBuffers : Nat := 0
  maxPerStageDescriptorStorageBuffers : Nat := 0
  maxPerStageDescriptorSampledImages : Nat := 0
  maxPerStageDescriptorStorageImages : Nat := 0
  maxPerStageDescriptorInputAttachments : Nat := 0
  maxPerStageResources : Nat := 0
  maxDescriptorSetSamplers : Nat := 0
  maxDescriptorSetUniformBuffers : Nat := 0
  maxDescriptorSetUniformBuffersDynamic : Nat := 0
  maxDescriptorSetStorageBuffers : Nat := 0
  maxDescriptorSetStorageBuffersDynamic : Nat := 0
  maxDescriptorSetSampledImages : Nat := 0
  maxDescriptorSetStorageImages : Nat := 0
  maxDescriptorSetInputAttachments : Nat := 0
  maxVertexInputAttributes : Nat := 0
  maxVertexInputBindings : Nat := 0
  maxVertexInputAttributeOffset : Nat := 0
  maxVertexInputBindingStride : Nat := 0
  maxVertexOutputComponents : Nat := 0
  maxTessellationGenerationLevel : Nat := 0
  maxTessellationPatchSize : Nat := 0
  maxTessellationControlPerVertexInputComponents : Nat := 0
  maxTessellationControlPerVertexOutputComponents : Nat := 0
  maxTessellationControlPerPatchOutputComponents : Nat := 0
  maxTessellationControlTotalOutputComponents : Nat := 0
  maxTessellationEvaluationInputComponents : Nat := 0
  maxTessellationEvaluationOutputComponents : Nat := 0
  maxGeometryShaderInvocations : Nat := 0
  maxGeometryInputComponents : Nat := 0
  maxGeometryOutputComponents : Nat := 0
  maxGeometryOutputVertices : Nat := 0
  maxGeometryTotalOutputComponents : Nat := 0
  maxFragmentInputComponents : Nat := 0
  maxFragmentOutputAttachments : Nat := 0
  maxFragmentDualSrcAttachments : Nat := 0
  maxFragmentCombinedOutputResources : Nat := 0
  maxComputeSharedMemorySize : Nat := 0
  maxComputeWorkGroupCount : List Nat := [0, 0, 0]
  maxComputeWorkGroupInvocations : Nat := 0
  maxComputeWorkGroupSize : List Nat := [0, 0, 0]
  subPixelPrecisionBits : Nat := 0
  subTexelPrecisionBits : Nat := 0
  mipmapPrecisionBits : Nat := 0
  maxDrawIndexedIndexValue : Nat := 0
  maxDrawIndirectCount : Nat := 0
  maxSamplerLodBias : ℚ := 0
  maxSamplerAnisotropy : ℚ := 0
  maxViewports : Nat := 0
  maxViewportDimensions : List Nat := [0, 0]
  viewportBoundsRange : List ℚ := [0, 0]
  viewportSubPixelBits : Nat := 0
  minMemoryMapAlignment : Nat := 0        -- size_t
  minTexelBufferOffsetAlignment : Nat := 0
  minUniformBufferOffsetAlignment : Nat := 0
  minStorageBufferOffsetAlignment : Nat := 0
  minTexelOffset : Int := 0
  maxTexelOffset : Nat := 0
  minTexelGatherOffset : Int := 0
  maxTexelGatherOffset : Nat := 0
  minInterpolationOffset : ℚ := 0
  maxInterpolationOffset : ℚ := 0
  subPixelInterpolationOffsetBits : Nat := 0
  maxFramebufferWidth : Nat := 0
  maxFramebufferHeight : Nat := 0
  maxFramebufferLayers : Nat := 0
  framebufferColorSampleCounts : Nat := 0
  framebufferDepthSampleCounts : Nat := 0
  framebufferStencilSampleCounts : Nat := 0
  framebufferNoAttachmentsSampleCounts : Nat := 0
  maxColorAttachments : Nat := 0
  sampledImageColorSampleCounts : Nat := 0
  sampledImageIntegerSampleCounts : Nat := 0
  sampledImageDepthSampleCounts : Nat := 0
  sampledImageStencilSampleCounts : Nat := 0
  storageImageSampleCounts : Nat := 0
  maxSampleMaskWords : Nat := 0
  timestampComputeAndGraphics : Nat := 0  -- VkBool32
  timestampPeriod : ℚ := 0
  maxClipDistances : Nat := 0
  maxCullDistances : Nat := 0
  maxCombinedClipAndCullDistances : Nat := 0
  discreteQueuePriorities : Nat := 0
  pointSizeRange : List ℚ := [0, 0]
  lineWidthRange : List ℚ := [0, 0]
  pointSizeGranularity : ℚ := 0
  lineWidthGranularity : ℚ := 0
  strictLines : Nat := 0                  -- VkBool32
  standardSampleLocations : Nat := 0      -- VkBool32
  optimalBufferCopyOffsetAlignment : Nat := 0
  optimalBufferCopyRowPitchAlignment : Nat := 0
  nonCoherentAtomSize : Nat := 0
  deriving DecidableEq

/-- VkPhysicalDeviceFeatures: a fixed set of VkBool32 (uint32) flags. -/
structure VkPhysicalDeviceFeatures where
  robustBufferAccess : Nat := 0
  fullDrawIndexUint32 : Nat := 0
  imageCubeArray : Nat := 0
  independentBlend : Nat := 0
  geometryShader : Nat := 0
  tessellationShader : Nat := 0
  sampleRateShading : Nat := 0
  dualSrcBlend : Nat := 0
  logicOp : Nat := 0
  multiDrawIndirect : Nat := 0
  drawIndirectFirstInstance : Nat := 0
  depthClamp : Nat := 0
  depthBiasClamp : Nat := 0
  fillModeNonSolid : Nat := 0
  depthBounds : Nat := 0
  wideLines : Nat := 0
  largePoints : Nat := 0
  alphaToOne : Nat := 0
  multiViewport : Nat := 0
  samplerAnisotropy : Nat := 0
  textureCompressionETC2 : Nat := 0
  textureCompressionASTC_LDR : Nat := 0
  textureCompressionBC : Nat := 0
  occlusionQueryPrecise : Nat := 0
  pipelineStatisticsQuery : Nat := 0
  vertexPipelineStoresAndAtomics : Nat := 0
  fragmentStoresAndAtomics : Nat := 0
  shaderTessellationAndGeometryPointSize : Nat := 0
  shaderImageGatherExtended : Nat := 0
  shaderStorageImageExtendedFormats : Nat := 0
  shaderStorageImageMultisample : Nat := 0
  shaderStorageImageReadWithoutFormat : Nat := 0
  shaderStorageImageWriteWithoutFormat : Nat := 0
  shaderUniformBufferArrayDynamicIndexing : Nat := 0
  shaderSampledImageArrayDynamicIndexing : Nat := 0
  shaderStorageBufferArrayDynamicIndexing : Nat := 0
  shaderStorageImageArrayDynamicIndexing : Nat := 0
  shaderClipDistance : Nat := 0
  shaderCullDistance : Nat := 0
  shaderFloat64 : Nat := 0
  shaderInt64 : Nat := 0
  shaderInt16 : Nat := 0
  shaderResourceResidency : Nat := 0
  shaderResourceMinLod : Nat := 0
  sparseBinding : Nat := 0
  sparseResidencyBuffer : Nat := 0
  sparseResidencyImage2D : Nat := 0
  sparseResidencyImage3D : Nat := 0
  sparseResidency2Samples : Nat := 0
  sparseResidency4Samples : Nat := 0
  sparseResidency8Samples : Nat := 0
  sparseResidency16Samples : Nat := 0
  sparseResidencyAliased : Nat := 0
  variableMultisampleRate : Nat := 0
  inheritedQueries : Nat := 0
  deriving DecidableEq

/-- VkPhysicalDeviceProperties: identity fields, the name and cache-UUID
fixed buffers (char[VK_MAX_PHYSICAL_DEVICE_NAME_SIZE] modelled as String,
uint8_t[VK_UUID_SIZE] as a 16-entry list), and the nested blocks. -/
structure VkPhysicalDeviceProperties where
  apiVersion : Nat := 0
  driverVersion : Nat := 0
  vendorID : Nat := 0
  deviceID : Nat := 0
  deviceType : Int := 0       -- VkPhysicalDeviceType enum
  deviceName : String := ""
  pipelineCacheUUID : List Nat := List.replicate 16 0
  limits : VkPhysicalDeviceLimits := {}
  sparseProperties : VkPhysicalDeviceSparseProperties := {}
  deriving DecidableEq

/-- PhysicalDeviceData: the per-device capability record.  The constructor
zero-initializes every member; the queue-family vector starts empty. -/
structure PhysicalDeviceData where
  physical_device_properties_ : VkPhysicalDeviceProperties := {}
  physical_device_features_ : VkPhysicalDeviceFeatures := {}
  physical_device_memory_properties_ : VkPhysicalDeviceMemoryProperties := {}
  arrayof_queue_family_properties_ : List VkQueueFamilyProperties := []
  deriving DecidableEq

-- JsonLoader: field coercion layer --------------------------------------------

/-- JsonLoader::WarnIfGreater: returns true (a diagnostic line was printed)
exactly when the new value exceeds the existing value.  The diagnostic is
advisory only; the caller stores the new value regardless. -/
def WarnIfGreater (new_value old_value : Nat) : Bool :=
  decide (new_value > old_value)

/-- JsonLoader::GetValue for float destinations, no warn function at any of
its call sites: overwrite only when the node passes isDouble. -/
def GetValueFloat (parent : JsonValue) (name : String) (dest : ℚ) : ℚ :=
  let value := getMember parent name
  if value.isDouble then value.asFloat else dest

/-- JsonLoader::GetValue for int32_t destinations, no warn function at any
of its call sites.  The source stages asInt through a uint32_t local before
the store; for a value passing isInt that round trip is value-preserving, so
the net effect is storing asInt. -/
def GetValueI32 (parent : JsonValue) (name : String) (dest : Int) : Int :=
  let value := getMember parent name
  if value.isInt then value.asInt else dest

/-- JsonLoader::GetValue for uint32_t destinations with a null warn
function. -/
def GetValueU32 (parent : JsonValue) (name : String) (dest : Nat) : Nat :=
  let value := getMember parent name
  if value.isUInt then value.asUInt else dest

/-- JsonLoader::GetValue for uint32_t destinations with WarnIfGreater as
warn function (the GET_VALUE_WARN expansion).  Second component: whether the
advisory diagnostic fired; the store is unconditional on it. -/
def GetValueU32Warn (parent : JsonValue) (name : String) (dest : Nat) :
    Nat × Bool :=
  let value := getMember parent name
  if value.isUInt then (value.asUInt, WarnIfGreater value.asUInt dest)
  else (dest, false)

/-- JsonLoader::GetValue for uint64_t (VkDeviceSize, size_t) destinations
with a null warn function. -/
def GetValueU64 (parent : JsonValue) (name : String) (dest : Nat) : Nat :=
  let value := getMember parent name
  if value.isUInt64 then value.asUInt64 else dest

/-- JsonLoader::GetValue for uint64_t destinations with WarnIfGreater (used
for VkMemoryHeap::size). -/
def GetValueU64Warn (parent : JsonValue) (name : String) (dest : Nat) :
    Nat × Bool :=
  let value := getMember parent name
  if value.isUInt64 then (value.asUInt64, WarnIfGreater value.asUInt64 dest)
  else (dest, false)

/-- JsonLoader::GetValue template overload for Vulkan enum destinations
(VkPhysicalDeviceType): gate on isInt, store the cast of asInt. -/
def GetValueEnum (parent : JsonValue) (name : String) (dest : Int) : Int :=
  let value := getMember parent name
  if value.isInt then value.asInt else dest

/-- JsonLoader::GetArray for uint8_t destinations (pipelineCacheUUID):
require an array node, copy elementwise (uint8_t stores truncate mod 256),
return the element count, or -1 leaving the destination untouched. -/
def GetArrayU8 (parent : JsonValue) (name : String) (dest : List Nat) :
    Int × List Nat :=
  match getMember parent name with
  | .arrayVal elems =>
      ((elems.length : Int), listOverlay (elems.map (fun e => e.asUInt % 256)) dest)
  | _ => (-1, dest)

/-- JsonLoader::GetArray for uint32_t destinations. -/
def GetArrayU32 (parent : JsonValue) (name : String) (dest : List Nat) :
    Int × List Nat :=
  match getMember parent name with
  | .arrayVal elems =>
      ((elems.length : Int), listOverlay (elems.map JsonValue.asUInt) dest)
  | _ => (-1, dest)

/-- JsonLoader::GetArray for float destinations. -/
def GetArrayFloat (parent : JsonValue) (name : String) (dest : List ℚ) :
    Int × List ℚ :=
  match getMember parent name with
  | .arrayVal elems =>
      ((elems.length : Int), listOverlay (elems.map JsonValue.asFloat) dest)
  | _ => (-1, dest)

/-- JsonLoader::GetArray for char destinations (deviceName): require a
string node, copy it verbatim into the buffer, return its length, or -1
leaving the destination untouched. -/
def GetArrayString (parent : JsonValue) (name : String) (dest : String) :
    Int × String :=
  let value := getMember parent name
  if value.isString then ((value.asCString.length : Int), value.asCString)
  else (-1, dest)

-- JsonLoader: structured record decoder ---------------------------------------

/-- JsonLoader::GetValue(VkExtent3D): skip unless the named node is an
object, then decode the three uint32 fields. -/
def GetValueExtent3D (parent : JsonValue) (name : String) (dest : VkExtent3D) :
    VkExtent3D :=
  let value := getMember parent name
  if value.typeOf = JsonType.objectValue then
    { width := GetValueU32 value "width" dest.width,
      height := GetValueU32 value "height" dest.height,
      depth := GetValueU32 value "depth" dest.depth }
  else dest

/-- JsonLoader::GetValue(VkQueueFamilyProperties), indexed access into the
enclosing array: skip unless the element is an object. -/
def GetValueQueueFamilyProperties (parent : JsonValue) (index : Nat)
    (dest : VkQueueFamilyProperties) : VkQueueFamilyProperties :=
  let value := getIndex parent index
  if value.typeOf = JsonType.objectValue then
    { queueFlags := GetValueU32 value "queueFlags" dest.queueFlags,
      queueCount := GetValueU32 value "queueCount" dest.queueCount,
      timestampValidBits := GetValueU32 value "timestampValidBits" dest.timestampValidBits,
      minImageTransferGranularity :=
        GetValueExtent3D value "minImageTransferGranularity" dest.minImageTransferGranularity }
  else dest

/-- JsonLoader::GetValue(VkMemoryType), indexed access: skip unless the
element is an object, then merge the two uint32 fields into the existing
array entry. -/
def GetValueMemoryType (parent : JsonValue) (index : Nat) (dest : VkMemoryType) :
    VkMemoryType :=
  let value := getIndex parent index
  if value.typeOf = JsonType.objectValue then
    { propertyFlags := GetValueU32 value "propertyFlags" dest.propertyFlags,
      heapIndex := GetValueU32 value "heapIndex" dest.heapIndex }
  else dest

/-- JsonLoader::GetValue(VkMemoryHeap), indexed access: size is a guarded
uint64 (GET_VALUE_WARN with WarnIfGreater), flags a plain uint32. -/
def GetValueMemoryHeap (parent : JsonValue) (index : Nat) (dest : VkMemoryHeap) :
    VkMemoryHeap :=
  let value := getIndex parent index
  if value.typeOf = JsonType.objectValue then
    { size := (GetValueU64Warn value "size" dest.size).1,
      flags := GetValueU32 value "flags" dest.flags }
  else dest

/-- JsonLoader::GetArray(VkMemoryType): require an array node; decode each
entry in place into the corresponding slot of the fixed destination array
and return the entry count, or -1 leaving the destination untouched. -/
def GetArrayMemoryType (parent : JsonValue) (name : String)
    (dest : List VkMemoryType) : Int × List VkMemoryType :=
  match getMember parent name with
  | .arrayVal elems =>
      ((elems.length : Int),
        updateElemsFrom (fun i d => GetValueMemoryType (.arrayVal elems) i d)
          elems.length 0 dest)
  | _ => (-1, dest)

/-- JsonLoader::GetArray(VkMemoryHeap): same shape as the memory-type
array decode. -/
def GetArrayMemoryHeap (parent : JsonValue) (name : String)
    (dest : List VkMemoryHeap) : Int × List VkMemoryHeap :=
  match getMember parent name with
  | .arrayVal elems =>
      ((elems.length : Int),
        updateElemsFrom (fun i d => GetValueMemoryHeap (.arrayVal elems) i d)
          elems.length 0 dest)
  | _ => (-1, dest)

/-- JsonLoader::GetArray(ArrayOfVkQueueFamilyProperties): require an array
node; clear the destination vector and push one element per entry, each
decoded into a zero-initialized VkQueueFamilyProperties; return the new
size, or -1 leaving the vector untouched. -/
def GetArrayQueueFamilyProperties (parent : JsonValue) (name : String)
    (dest : List VkQueueFamilyProperties) : Int × List VkQueueFamilyProperties :=
  match getMember parent name with
  | .arrayVal elems =>
      let filled := (List.range elems.length).map
        (fun i => GetValueQueueFamilyProperties (.arrayVal elems) i {})
      ((filled.length : Int), filled)
  | _ => (-1, dest)

/-- JsonLoader::GetValue(VkPhysicalDeviceSparseProperties). -/
def GetValueSparseProperties (parent : JsonValue) (name : String)
    (dest : VkPhysicalDeviceSparseProperties) : VkPhysicalDeviceSparseProperties :=
  let value := getMember parent name
  if value.typeOf = JsonType.objectValue then
    { residencyStandard2DBlockShape :=
        GetValueU32 value "residencyStandard2DBlockShape" dest.residencyStandard2DBlockShape,
      residencyStandard2DMultisampleBlockShape :=
        GetValueU32 value "residencyStandard2DMultisampleBlockShape" dest.residencyStandard2DMultisampleBlockShape,
      residencyStandard3DBlockShape :=
        GetValueU32 value "residencyStandard3DBlockShape" dest.residencyStandard3DBlockShape,
      residencyAlignedMipSize :=
        GetValueU32 value "residencyAlignedMipSize" dest.residencyAlignedMipSize,
      residencyNonResidentStrict :=
        GetValueU32 value "residencyNonResidentStrict" dest.residencyNonResidentStrict }
  else dest

/-- JsonLoader::GetValue(VkPhysicalDeviceLimits): skip unless the named node
is an object, then decode every field with its per-type coercion rule, in
the declared order.  The named descriptor-limit subset and maxPerStageResources
use GET_VALUE_WARN with WarnIfGreater; every field write is independent of
the others, so the sequential member stores of the source are one record
update. -/
def GetValueLimits (parent : JsonValue) (name : String)
    (dest : VkPhysicalDeviceLimits) : VkPhysicalDeviceLimits :=
  let value := getMember parent name
  if value.typeOf = JsonType.objectValue then
    { maxImageDimension1D := GetValueU32 value "maxImageDimension1D" dest.maxImageDimension1D,
      maxImageDimension2D := GetValueU32 value "maxImageDimension2D" dest.maxImageDimension2D,
      maxImageDimension3D := GetValueU32 value "maxImageDimension3D" dest.maxImageDimension3D,
      maxImageDimensionCube := GetValueU32 value "maxImageDimensionCube" dest.maxImageDimensionCube,
      maxImageArrayLayers := GetValueU32 value "maxImageArrayLayers" dest.maxImageArrayLayers,
      maxTexelBufferElements := GetValueU32 value "maxTexelBufferElements" dest.maxTexelBufferElements,
      maxUniformBufferRange := GetValueU32 value "maxUniformBufferRange" dest.maxUniformBufferRange,
      maxStorageBufferRange := GetValueU32 value "maxStorageBufferRange" dest.maxStorageBufferRange,
      maxPushConstantsSize := GetValueU32 value "maxPushConstantsSize" dest.maxPushConstantsSize,
      maxMemoryAllocationCount := GetValueU32 value "maxMemoryAllocationCount" dest.maxMemoryAllocationCount,
      maxSamplerAllocationCount := GetValueU32 value "maxSamplerAllocationCount" dest.maxSamplerAllocationCount,
      bufferImageGranularity := GetValueU64 value "bufferImageGranularity" dest.bufferImageGranularity,
      sparseAddressSpaceSize := GetValueU64 value "sparseAddressSpaceSize" dest.sparseAddressSpaceSize,
      maxBoundDescriptorSets := (GetValueU32Warn value "maxBoundDescriptorSets" dest.maxBoundDescriptorSets).1,
      maxPerStageDescriptorSamplers := (GetValueU32Warn value "maxPerStageDescriptorSamplers" dest.maxPerStageDescriptorSamplers).1,
      maxPerStageDescriptorUniformBuffers := (GetValueU32Warn value "maxPerStageDescriptorUniformBuffers" dest.maxPerStageDescriptorUniformBuffers).1,
      maxPerStageDescriptorStorageBuffers := (GetValueU32Warn value "maxPerStageDescriptorStorageBuffers" dest.maxPerStageDescriptorStorageBuffers).1,
      maxPerStageDescriptorSampledImages := (GetValueU32Warn value "maxPerStageDescriptorSampledImages" dest.maxPerStageDescriptorSampledImages).1,
      maxPerStageDescriptorStorageImages := (GetValueU32Warn value "maxPerStageDescriptorStorageImages" dest.maxPerStageDescriptorStorageImages).1,
      maxPerStageDescriptorInputAttachments := (GetValueU32Warn value "maxPerStageDescriptorInputAttachments" dest.maxPerStageDescriptorInputAttachments).1,
      maxPerStageResources := (GetValueU32Warn value "maxPerStageResources" dest.maxPerStageResources).1,
      maxDescriptorSetSamplers := (GetValueU32Warn value "maxDescriptorSetSamplers" dest.maxDescriptorSetSamplers).1,
      maxDescriptorSetUniformBuffers := (GetValueU32Warn value "maxDescriptorSetUniformBuffers" dest.maxDescriptorSetUniformBuffers).1,
      maxDescriptorSetUniformBuffersDynamic := (GetValueU32Warn value "maxDescriptorSetUniformBuffersDynamic" dest.maxDescriptorSetUniformBuffersDynamic).1,
      maxDescriptorSetStorageBuffers := (GetValueU32Warn value "maxDescriptorSetStorageBuffers" dest.maxDescriptorSetStorageBuffers).1,
      maxDescriptorSetStorageBuffersDynamic := (GetValueU32Warn value "maxDescriptorSetStorageBuffersDynamic" dest.maxDescriptorSetStorageBuffersDynamic).1,
      maxDescriptorSetSampledImages := (GetValueU32Warn value "maxDescriptorSetSampledImages" dest.maxDescriptorSetSampledImages).1,
      maxDescriptorSetStorageImages := (GetValueU32Warn value "maxDescriptorSetStorageImages" dest.maxDescriptorSetStorageImages).1,
      maxDescriptorSetInputAttachments := (GetValueU32Warn value "maxDescriptorSetInputAttachments" dest.maxDescriptorSetInputAttachments).1,
      maxVertexInputAttributes := GetValueU32 value "maxVertexInputAttributes" dest.maxVertexInputAttributes,
      maxVertexInputBindings := GetValueU32 value "maxVertexInputBindings" dest.maxVertexInputBindings,
      maxVertexInputAttributeOffset := GetValueU32 value "maxVertexInputAttributeOffset" dest.maxVertexInputAttributeOffset,
      maxVertexInputBindingStride := GetValueU32 value "maxVertexInputBindingStride" dest.maxVertexInputBindingStride,
      maxVertexOutputComponents := GetValueU32 value "maxVertexOutputComponents" dest.maxVertexOutputComponents,
      maxTessellationGenerationLevel := GetValueU32 value "maxTessellationGenerationLevel" dest.maxTessellationGenerationLevel,
      maxTessellationPatchSize := GetValueU32 value "maxTessellationPatchSize" dest.maxTessellationPatchSize,
      maxTessellationControlPerVertexInputComponents := GetValueU32 value "maxTessellationControlPerVertexInputComponents" dest.maxTessellationControlPerVertexInputComponents,
      maxTessellationControlPerVertexOutputComponents := GetValueU32 value "maxTessellationControlPerVertexOutputComponents" dest.maxTessellationControlPerVertexOutputComponents,
      maxTessellationControlPerPatchOutputComponents := GetValueU32 value "maxTessellationControlPerPatchOutputComponents" dest.maxTessellationControlPerPatchOutputComponents,
      maxTessellationControlTotalOutputComponents := GetValueU32 value "maxTessellationControlTotalOutputComponents" dest.maxTessellationControlTotalOutputComponents,
      maxTessellationEvaluationInputComponents := GetValueU32 value "maxTessellationEvaluationInputComponents" dest.maxTessellationEvaluationInputComponents,
      maxTessellationEvaluationOutputComponents := GetValueU32 value "maxTessellationEvaluationOutputComponents" dest.maxTessellationEvaluationOutputComponents,
      maxGeometryShaderInvocations := GetValueU32 value "maxGeometryShaderInvocations" dest.maxGeometryShaderInvocations,
      maxGeometryInputComponents := GetValueU32 value "maxGeometryInputComponents" dest.maxGeometryInputComponents,
      maxGeometryOutputComponents := GetValueU32 value "maxGeometryOutputComponents" dest.maxGeometryOutputComponents,
      maxGeometryOutputVertices := GetValueU32 value "maxGeometryOutputVertices" dest.maxGeometryOutputVertices,
      maxGeometryTotalOutputComponents := GetValueU32 value "maxGeometryTotalOutputComponents" dest.maxGeometryTotalOutputComponents,
      maxFragmentInputComponents := GetValueU32 value "maxFragmentInputComponents" dest.maxFragmentInputComponents,
      maxFragmentOutputAttachments := GetValueU32 value "maxFragmentOutputAttachments" dest.maxFragmentOutputAttachments,
      maxFragmentDualSrcAttachments := GetValueU32 value "maxFragmentDualSrcAttachments" dest.maxFragmentDualSrcAttachments,
      maxFragmentCombinedOutputResources := GetValueU32 value "maxFragmentCombinedOutputResources" dest.maxFragmentCombinedOutputResources,
      maxComputeSharedMemorySize := GetValueU32 value "maxComputeSharedMemorySize" dest.maxComputeSharedMemorySize,
      maxComputeWorkGroupCount := (GetArrayU32 value "maxComputeWorkGroupCount" dest.maxComputeWorkGroupCount).2,
      maxComputeWorkGroupInvocations := GetValueU32 value "maxComputeWorkGroupInvocations" dest.maxComputeWorkGroupInvocations,
      maxComputeWorkGroupSize := (GetArrayU32 value "maxComputeWorkGroupSize" dest.maxComputeWorkGroupSize).2,
      subPixelPrecisionBits := GetValueU32 value "subPixelPrecisionBits" dest.subPixelPrecisionBits,
      subTexelPrecisionBits := GetValueU32 value "subTexelPrecisionBits" dest.subTexelPrecisionBits,
      mipmapPrecisionBits := GetValueU32 value "mipmapPrecisionBits" dest.mipmapPrecisionBits,
      maxDrawIndexedIndexValue := GetValueU32 value "maxDrawIndexedIndexValue" dest.maxDrawIndexedIndexValue,
      maxDrawIndirectCount := GetValueU32 value "maxDrawIndirectCount" dest.maxDrawIndirectCount,
      maxSamplerLodBias := GetValueFloat value "maxSamplerLodBias" dest.maxSamplerLodBias,
      maxSamplerAnisotropy := GetValueFloat value "maxSamplerAnisotropy" dest.maxSamplerAnisotropy,
      maxViewports := GetValueU32 value "maxViewports" dest.maxViewports,
      maxViewportDimensions := (GetArrayU32 value "maxViewportDimensions" dest.maxViewportDimensions).2,
      viewportBoundsRange := (GetArrayFloat value "viewportBoundsRange" dest.viewportBoundsRange).2,
      viewportSubPixelBits := GetValueU32 value "viewportSubPixelBits" dest.viewportSubPixelBits,
      minMemoryMapAlignment := GetValueU64 value "minMemoryMapAlignment" dest.minMemoryMapAlignment,
      minTexelBufferOffsetAlignment := GetValueU64 value "minTexelBufferOffsetAlignment" dest.minTexelBufferOffsetAlignment,
      minUniformBufferOffsetAlignment := GetValueU64 value "minUniformBufferOffsetAlignment" dest.minUniformBufferOffsetAlignment,
      minStorageBufferOffsetAlignment := GetValueU64 value "minStorageBufferOffsetAlignment" dest.minStorageBufferOffsetAlignment,
      minTexelOffset := GetValueI32 value "minTexelOffset" dest.minTexelOffset,
      maxTexelOffset := GetValueU32 value "maxTexelOffset" dest.maxTexelOffset,
      minTexelGatherOffset := GetValueI32 value "minTexelGatherOffset" dest.minTexelGatherOffset,
      maxTexelGatherOffset := GetValueU32 value "maxTexelGatherOffset" dest.maxTexelGatherOffset,
      minInterpolationOffset := GetValueFloat value "minInterpolationOffset" dest.minInterpolationOffset,
      maxInterpolationOffset := GetValueFloat value "maxInterpolationOffset" dest.maxInterpolationOffset,
      subPixelInterpolationOffsetBits := GetValueU32 value "subPixelInterpolationOffsetBits" dest.subPixelInterpolationOffsetBits,
      maxFramebufferWidth := GetValueU32 value "maxFramebufferWidth" dest.maxFramebufferWidth,
      maxFramebufferHeight := GetValueU32 value "maxFramebufferHeight" dest.maxFramebufferHeight,
      maxFramebufferLayers := GetValueU32 value "maxFramebufferLayers" dest.maxFramebufferLayers,
      framebufferColorSampleCounts := GetValueU32 value "framebufferColorSampleCounts" dest.framebufferColorSampleCounts,
      framebufferDepthSampleCounts := GetValueU32 value "framebufferDepthSampleCounts" dest.framebufferDepthSampleCounts,
      framebufferStencilSampleCounts := GetValueU32 value "framebufferStencilSampleCounts" dest.framebufferStencilSampleCounts,
      framebufferNoAttachmentsSampleCounts := GetValueU32 value "framebufferNoAttachmentsSampleCounts" dest.framebufferNoAttachmentsSampleCounts,
      maxColorAttachments := GetValueU32 value "maxColorAttachments" dest.maxColorAttachments,
      sampledImageColorSampleCounts := GetValueU32 value "sampledImageColorSampleCounts" dest.sampledImageColorSampleCounts,
      sampledImageIntegerSampleCounts := GetValueU32 value "sampledImageIntegerSampleCounts" dest.sampledImageIntegerSampleCounts,
      sampledImageDepthSampleCounts := GetValueU32 value "sampledImageDepthSampleCounts" dest.sampledImageDepthSampleCounts,
      sampledImageStencilSampleCounts := GetValueU32 value "sampledImageStencilSampleCounts" dest.sampledImageStencilSampleCounts,
      storageImageSampleCounts := GetValueU32 value "storageImageSampleCounts" dest.storageImageSampleCounts,
      maxSampleMaskWords := GetValueU32 value "maxSampleMaskWords" dest.maxSampleMaskWords,
      timestampComputeAndGraphics := GetValueU32 value "timestampComputeAndGraphics" dest.timestampComputeAndGraphics,
      timestampPeriod := GetValueFloat value "timestampPeriod" dest.timestampPeriod,
      maxClipDistances := GetValueU32 value "maxClipDistances" dest.maxClipDistances,
      maxCullDistances := GetValueU32 value "maxCullDistances" dest.maxCullDistances,
      maxCombinedClipAndCullDistances := GetValueU32 value "maxCombinedClipAndCullDistances" dest.maxCombinedClipAndCullDistances,
      discreteQueuePriorities := GetValueU32 value "discreteQueuePriorities" dest.discreteQueuePriorities,
      pointSizeRange := (GetArrayFloat value "pointSizeRange" dest.pointSizeRange).2,
      lineWidthRange := (GetArrayFloat value "lineWidthRange" dest.lineWidthRange).2,
      pointSizeGranularity := GetValueFloat value "pointSizeGranularity" dest.pointSizeGranularity,
      lineWidthGranularity := GetValueFloat value "lineWidthGranularity" dest.lineWidthGranularity,
      strictLines := GetValueU32 value "strictLines" dest.strictLines,
      standardSampleLocations := GetValueU32 value "standardSampleLocations" dest.standardSampleLocations,
      optimalBufferCopyOffsetAlignment := GetValueU64 value "optimalBufferCopyOffsetAlignment" dest.optimalBufferCopyOffsetAlignment,
      optimalBufferCopyRowPitchAlignment := GetValueU64 value "optimalBufferCopyRowPitchAlignment" dest.optimalBufferCopyRowPitchAlignment,
      nonCoherentAtomSize := GetValueU64 value "nonCoherentAtomSize" dest.nonCoherentAtomSize }
  else dest

/-- JsonLoader::GetValue(VkPhysicalDeviceFeatures): skip unless the named
node is an object, then decode every VkBool32 flag through the uint32
coercion rule. -/
def GetValueFeatures (parent : JsonValue) (name : String)
    (dest : VkPhysicalDeviceFeatures) : VkPhysicalDeviceFeatures :=
  let value := getMember parent name
  if value.typeOf = JsonType.objectValue then
    { robustBufferAccess := GetValueU32 value "robustBufferAccess" dest.robustBufferAccess,
      fullDrawIndexUint32 := GetValueU32 value "fullDrawIndexUint32" dest.fullDrawIndexUint32,
      imageCubeArray := GetValueU32 value "imageCubeArray" dest.imageCubeArray,
      independentBlend := GetValueU32 value "independentBlend" dest.independentBlend,
      geometryShader := GetValueU32 value "geometryShader" dest.geometryShader,
      tessellationShader := GetValueU32 value "tessellationShader" dest.tessellationShader,
      sampleRateShading := GetValueU32 value "sampleRateShading" dest.sampleRateShading,
      dualSrcBlend := GetValueU32 value "dualSrcBlend" dest.dualSrcBlend,
      logicOp := GetValueU32 value "logicOp" dest.logicOp,
      multiDrawIndirect := GetValueU32 value "multiDrawIndirect" dest.multiDrawIndirect,
      drawIndirectFirstInstance := GetValueU32 value "drawIndirectFirstInstance" dest.drawIndirectFirstInstance,
      depthClamp := GetValueU32 value "depthClamp" dest.depthClamp,
      depthBiasClamp := GetValueU32 value "depthBiasClamp" dest.depthBiasClamp,
      fillModeNonSolid := GetValueU32 value "fillModeNonSolid" dest.fillModeNonSolid,
      depthBounds := GetValueU32 value "depthBounds" dest.depthBounds,
      wideLines := GetValueU32 value "wideLines" dest.wideLines,
      largePoints := GetValueU32 value "largePoints" dest.largePoints,
      alphaToOne := GetValueU32 value "alphaToOne" dest.alphaToOne,
      multiViewport := GetValueU32 value "multiViewport" dest.multiViewport,
      samplerAnisotropy := GetValueU32 value "samplerAnisotropy" dest.samplerAnisotropy,
      textureCompressionETC2 := GetValueU32 value "textureCompressionETC2" dest.textureCompressionETC2,
      textureCompressionASTC_LDR := GetValueU32 value "textureCompressionASTC_LDR" dest.textureCompressionASTC_LDR,
      textureCompressionBC := GetValueU32 value "textureCompressionBC" dest.textureCompressionBC,
      occlusionQueryPrecise := GetValueU32 value "occlusionQueryPrecise" dest.occlusionQueryPrecise,
      pipelineStatisticsQuery := GetValueU32 value "pipelineStatisticsQuery" dest.pipelineStatisticsQuery,
      vertexPipelineStoresAndAtomics := GetValueU32 value "vertexPipelineStoresAndAtomics" dest.vertexPipelineStoresAndAtomics,
      fragmentStoresAndAtomics := GetValueU32 value "fragmentStoresAndAtomics" dest.fragmentStoresAndAtomics,
      shaderTessellationAndGeometryPointSize := GetValueU32 value "shaderTessellationAndGeometryPointSize" dest.shaderTessellationAndGeometryPointSize,
      shaderImageGatherExtended := GetValueU32 value "shaderImageGatherExtended" dest.shaderImageGatherExtended,
      shaderStorageImageExtendedFormats := GetValueU32 value "shaderStorageImageExtendedFormats" dest.shaderStorageImageExtendedFormats,
      shaderStorageImageMultisample := GetValueU32 value "shaderStorageImageMultisample" dest.shaderStorageImageMultisample,
      shaderStorageImageReadWithoutFormat := GetValueU32 value "shaderStorageImageReadWithoutFormat" dest.shaderStorageImageReadWithoutFormat,
      shaderStorageImageWriteWithoutFormat := GetValueU32 value "shaderStorageImageWriteWithoutFormat" dest.shaderStorageImageWriteWithoutFormat,
      shaderUniformBufferArrayDynamicIndexing := GetValueU32 value "shaderUniformBufferArrayDynamicIndexing" dest.shaderUniformBufferArrayDynamicIndexing,
      shaderSampledImageArrayDynamicIndexing := GetValueU32 value "shaderSampledImageArrayDynamicIndexing" dest.shaderSampledImageArrayDynamicIndexing,
      shaderStorageBufferArrayDynamicIndexing := GetValueU32 value "shaderStorageBufferArrayDynamicIndexing" dest.shaderStorageBufferArrayDynamicIndexing,
      shaderStorageImageArrayDynamicIndexing := GetValueU32 value "shaderStorageImageArrayDynamicIndexing" dest.shaderStorageImageArrayDynamicIndexing,
      shaderClipDistance := GetValueU32 value "shaderClipDistance" dest.shaderClipDistance,
      shaderCullDistance := GetValueU32 value "shaderCullDistance" dest.shaderCullDistance,
      shaderFloat64 := GetValueU32 value "shaderFloat64" dest.shaderFloat64,
      shaderInt64 := GetValueU32 value "shaderInt64" dest.shaderInt64,
      shaderInt16 := GetValueU32 value "shaderInt16" dest.shaderInt16,
      shaderResourceResidency := GetValueU32 value "shaderResourceResidency" dest.shaderResourceResidency,
      shaderResourceMinLod := GetValueU32 value "shaderResourceMinLod" dest.shaderResourceMinLod,
      sparseBinding := GetValueU32 value "sparseBinding" dest.sparseBinding,
      sparseResidencyBuffer := GetValueU32 value "sparseResidencyBuffer" dest.sparseResidencyBuffer,
      sparseResidencyImage2D := GetValueU32 value "sparseResidencyImage2D" dest.sparseResidencyImage2D,
      sparseResidencyImage3D := GetValueU32 value "sparseResidencyImage3D" dest.sparseResidencyImage3D,
      sparseResidency2Samples := GetValueU32 value "sparseResidency2Samples" dest.sparseResidency2Samples,
      sparseResidency4Samples := GetValueU32 value "sparseResidency4Samples" dest.sparseResidency4Samples,
      sparseResidency8Samples := GetValueU32 value "sparseResidency8Samples" dest.sparseResidency8Samples,
      sparseResidency16Samples := GetValueU32 value "sparseResidency16Samples" dest.sparseResidency16Samples,
      sparseResidencyAliased := GetValueU32 value "sparseResidencyAliased" dest.sparseResidencyAliased,
      variableMultisampleRate := GetValueU32 value "variableMultisampleRate" dest.variableMultisampleRate,
      inheritedQueries := GetValueU32 value "inheritedQueries" dest.inheritedQueries }
  else dest

/-- JsonLoader::GetValue(VkPhysicalDeviceProperties): identity scalars, the
two fixed buffers, and the nested limits and sparse-residency blocks. -/
def GetValueProperties (parent : JsonValue) (name : String)
    (dest : VkPhysicalDeviceProperties) : VkPhysicalDeviceProperties :=
  let value := getMember parent name
  if value.typeOf = JsonType.objectValue then
    { apiVersion := GetValueU32 value "apiVersion" dest.apiVersion,
      driverVersion := GetValueU32 value "driverVersion" dest.driverVersion,
      vendorID := GetValueU32 value "vendorID" dest.vendorID,
      deviceID := GetValueU32 value "deviceID" dest.deviceID,
      deviceType := GetValueEnum value "deviceType" dest.deviceType,
      deviceName := (GetArrayString value "deviceName" dest.deviceName).2,
      pipelineCacheUUID := (GetArrayU8 value "pipelineCacheUUID" dest.pipelineCacheUUID).2,
      limits := GetValueLimits value "limits" dest.limits,
      sparseProperties := GetValueSparseProperties value "sparseProperties" dest.sparseProperties }
  else dest

/-- JsonLoader::GetValue(VkPhysicalDeviceMemoryProperties): skip unless the
named node is an object.  The heap and type arrays are decoded in place into
the record's fixed arrays; each count field is overwritten only when its
GetArray call saw an array node.  After the type array is decoded, every
decoded type whose heapIndex is at or beyond the current memoryHeapCount
produces one advisory diagnostic, returned here as an (index, heapIndex,
memoryHeapCount) triple; nothing in the record is changed by that check. -/
def GetValueMemoryProperties (parent : JsonValue) (name : String)
    (dest : VkPhysicalDeviceMemoryProperties) :
    VkPhysicalDeviceMemoryProperties × List (Nat × Nat × Nat) :=
  let value := getMember parent name
  if value.typeOf = JsonType.objectValue then
    let heapRes := GetArrayMemoryHeap value "memoryHeaps" dest.memoryHeaps
    let d1 : VkPhysicalDeviceMemoryProperties :=
      { dest with
        memoryHeaps := heapRes.2,
        memoryHeapCount := if heapRes.1 ≥ 0 then heapRes.1.toNat else dest.memoryHeapCount }
    let typeRes := GetArrayMemoryType value "memoryTypes" d1.memoryTypes
    if typeRes.1 ≥ 0 then
      let d2 : VkPhysicalDeviceMemoryProperties :=
        { d1 with memoryTypes := typeRes.2, memoryTypeCount := typeRes.1.toNat }
      (d2,
        ((List.range d2.memoryTypeCount).filter
            (fun i => decide ((d2.memoryTypes.getD i {}).heapIndex ≥ d2.memoryHeapCount))).map
          (fun i => (i, (d2.memoryTypes.getD i {}).heapIndex, d2.memoryHeapCount)))
    else ({ d1 with memoryTypes := typeRes.2 }, [])
  else (dest, [])

-- JsonLoader: schema identification and top-level load -------------------------

inductive SchemaId where
  | kUnknown
  | kDevsim100
  deriving DecidableEq

/-- URI of the only schema version JsonLoader::IdentifySchema recognizes. -/
def kDevsim100Uri : String := "https://schema.khronos.org/vulkan/devsim_1_0_0.json#"

/-- JsonLoader::IdentifySchema: a non-string node (also the null node
standing for an absent member) or an unrecognized URI yields kUnknown. -/
def IdentifySchema (value : JsonValue) : SchemaId :=
  if value.isString then
    if value.asCString = kDevsim100Uri then SchemaId.kDevsim100 else SchemaId.kUnknown
  else SchemaId.kUnknown

/-- JsonLoader::LoadFile from the parsed document root onward.  The stages
before the root reaches this point (file not openable, text not parsing)
return false without touching the record and are outside the model, as is
the I/O itself.  A non-object root fails; then the schema member is
identified, an unrecognized schema fails, and the recognized schema decodes
the four top-level sections, each skipped when absent or mistyped, and
returns true.  The four section decoders touch disjoint record members, so
the sequential calls are one record update.  The advisory diagnostics of
the memory section are dropped here (they never influence control flow);
they remain observable through GetValueMemoryProperties itself. -/
def LoadFile (root : JsonValue) (pdd : PhysicalDeviceData) :
    Bool × PhysicalDeviceData :=
  if root.typeOf = JsonType.objectValue then
    match IdentifySchema (getMember root "$schema") with
    | SchemaId.kDevsim100 =>
        (true,
          { physical_device_properties_ :=
              GetValueProperties root "VkPhysicalDeviceProperties" pdd.physical_device_properties_,
            physical_device_features_ :=
              GetValueFeatures root "VkPhysicalDeviceFeatures" pdd.physical_device_features_,
            physical_device_memory_properties_ :=
              (GetValueMemoryProperties root "VkPhysicalDeviceMemoryProperties"
                pdd.physical_device_memory_properties_).1,
            arrayof_queue_family_properties_ :=
              (GetArrayQueueFamilyProperties root "ArrayOfVkQueueFamilyProperties"
                pdd.arrayof_queue_family_properties_).2 })
    | SchemaId.kUnknown => (false, pdd)
  else (false, pdd)

-- Registry read path -----------------------------------------------------------

inductive VkResult where
  | success
  | incomplete
  deriving DecidableEq

/-- EnumerateProperties: the count-or-copy helper behind the layer's
enumeration entry points.  A null destination (or a null source buffer, which
at the queue-family call site coincides with an empty vector and yields the
same observable outcome as a zero-length copy) reports the source count and
touches no buffer; otherwise up to the requested count of elements is copied
over the leading entries of the destination buffer, the count is set to the
number copied, and the result says whether the copy was complete. -/
def EnumerateProperties {T : Type} (src_count : Nat) (src_props : List T)
    (dst_count : Nat) (dst_props : Option (List T)) :
    VkResult × Nat × Option (List T) :=
  match dst_props with
  | none => (VkResult.success, src_count, none)
  | some buf =>
      let copy_count := min dst_count src_count
      ((if copy_count = src_count then VkResult.success else VkResult.incomplete),
        copy_count, some (listOverlay (src_props.take copy_count) buf))

/-- Outcome of one GetPhysicalDeviceQueueFamilyProperties call: the value
written through pQueueFamilyPropertyCount, the destination buffer contents
(none models a null pQueueFamilyProperties), and whether the call was
forwarded to the next layer in the chain. -/
structure QueueFamilyQueryOutcome where
  count : Nat
  buffer : Option (List VkQueueFamilyProperties)
  forwardedToNext : Bool
  deriving DecidableEq

/-- GetPhysicalDeviceQueueFamilyProperties: PhysicalDeviceData::Find is
modelled by the Option argument (some record iff the handle is registered);
the next layer in the chain is an arbitrary function.  With a registered
record the stored sequence is served through EnumerateProperties (whose
VkResult the void entry point discards) and the chain is not consulted;
otherwise the call is forwarded unchanged. -/
def GetPhysicalDeviceQueueFamilyProperties
    (pdd : Option PhysicalDeviceData)
    (next : Nat → Option (List VkQueueFamilyProperties) →
      Nat × Option (List VkQueueFamilyProperties))
    (pCount : Nat) (pProps : Option (List VkQueueFamilyProperties)) :
    QueueFamilyQueryOutcome :=
  match pdd with
  | some d =>
      let r := EnumerateProperties d.arrayof_queue_family_properties_.length
        d.arrayof_queue_family_properties_ pCount pProps
      { count := r.2.1, buffer := r.2.2, forwardedToNext := false }
  | none =>
      let r := next pCount pProps
      { count := r.1, buffer := r.2, forwardedToNext := true }

-- Exception-aware refinement of the unchecked decode paths ---------------------
--
-- The GetArray overloads for uint8, uint32, float and char apply jsoncpp
-- conversions to array elements with no preceding per-element type test, and
-- write into fixed C buffers with no capacity bound; jsoncpp throws on a
-- non-convertible element, and an over-capacity write leaves the program
-- without defined behavior.  The Checked definitions below refine exactly
-- those call sites: none models the load not completing normally (the
-- uncaught exception, or an out-of-capacity write).  Every other leaf of the
-- loader is type-gated before conversion and cannot fail, so only the
-- properties section (deviceName, pipelineCacheUUID and the six fixed-length
-- numeric arrays of the limits block) appears here.

theorem GetValueFloat_idem (p : JsonValue) (n : String) (d : ℚ) :
    GetValueFloat p n (GetValueFloat p n d) = GetValueFloat p n d := by
  by_cases h : (getMember p n).isDouble <;> simp [GetValueFloat, h]

theorem GetValueI32_idem (p : JsonValue) (n : String) (d : Int) :
    GetValueI32 p n (GetValueI32 p n d) = GetValueI32 p n d := by
  by_cases h : (getMember p n).isInt <;> simp [GetValueI32, h]

theorem GetValueU32_idem (p : JsonValue) (n : String) (d : Nat) :
    GetValueU32 p n (GetValueU32 p n d) = GetValueU32 p n d := by
  by_cases h : (getMember p n).isUInt <;> simp [GetValueU32, h]

theorem GetValueU32Warn_fst_idem (p : JsonValue) (n : String) (d : Nat) :
    (GetValueU32Warn p n (GetValueU32Warn p n d).1).1 = (GetValueU32Warn p n d).1 := by
  by_cases h : (getMember p n).isUInt <;> simp [GetValueU32Warn, h]

theorem GetValueU64_idem (p : JsonValue) (n : String) (d : Nat) :
    GetValueU64 p n (GetValueU64 p n d) = GetValueU64 p n d := by
  by_cases h : (getMember p n).isUInt64 <;> simp [GetValueU64, h]

theorem GetValueU64Warn_fst_idem (p : JsonValue) (n : String) (d : Nat) :
    (GetValueU64Warn p n (GetValueU64Warn p n d).1).1 = (GetValueU64Warn p n d).1 := by
  by_cases h : (getMember p n).isUInt64 <;> simp [GetValueU64Warn, h]

theorem GetValueEnum_idem (p : JsonValue) (n : String) (d : Int) :
    GetValueEnum p n (GetValueEnum p n d) = GetValueEnum p n d := by
  by_cases h : (getMember p n).isInt <;> simp [GetValueEnum, h]

theorem listOverlay_idem {α : Type} (src d : List α) :
    listOverlay src (listOverlay src d) = listOverlay src d := by
  simp [listOverlay, List.drop_left]

/-- Every JsonValue either is an array node or fails the array type test. -/
theorem arrayVal_or_not (v : JsonValue) :
    (∃ es, v = JsonValue.arrayVal es) ∨ v.typeOf ≠ JsonType.arrayValue := by
  cases v <;> simp [JsonValue.typeOf]

theorem GetArrayU8_not_array (p : JsonValue) (n : String) (d : List Nat)
    (h : (getMember p n).typeOf ≠ JsonType.arrayValue) :
    GetArrayU8 p n d = (-1, d) := by
  unfold GetArrayU8
  cases hv : getMember p n <;> simp_all [JsonValue.typeOf]

theorem GetArrayU32_not_array (p : JsonValue) (n : String) (d : List Nat)
    (h : (getMember p n).typeOf ≠ JsonType.arrayValue) :
    GetArrayU32 p n d = (-1, d) := by
  unfold GetArrayU32
  cases hv : getMember p n <;> simp_all [JsonValue.typeOf]

theorem GetArrayFloat_not_array (p : JsonValue) (n : String) (d : List ℚ)
    (h : (getMember p n).typeOf ≠ JsonType.arrayValue) :
    GetArrayFloat p n d = (-1, d) := by
  unfold GetArrayFloat
  cases hv : getMember p n <;> simp_all [JsonValue.typeOf]

theorem GetArrayMemoryType_not_array (p : JsonValue) (n : String)
    (d : List VkMemoryType) (h : (getMember p n).typeOf ≠ JsonType.arrayValue) :
    GetArrayMemoryType p n d = (-1, d) := by
  unfold GetArrayMemoryType
  cases hv : getMember p n <;> simp_all [JsonValue.typeOf]

theorem GetArrayMemoryHeap_not_array (p : JsonValue) (n : String)
    (d : List VkMemoryHeap) (h : (getMember p n).typeOf ≠ JsonType.arrayValue) :
    GetArrayMemoryHeap p n d = (-1, d) := by
  unfold GetArrayMemoryHeap
  cases hv : getMember p n <;> simp_all [JsonValue.typeOf]

theorem GetArrayQueueFamilyProperties_not_array (p : JsonValue) (n : String)
    (d : List VkQueueFamilyProperties)
    (h : (getMember p n).typeOf ≠ JsonType.arrayValue) :
    GetArrayQueueFamilyProperties p n d = (-1, d) := by
  unfold GetArrayQueueFamilyProperties
  cases hv : getMember p n <;> simp_all [JsonValue.typeOf]

theorem GetArrayMemoryType_array (p : JsonValue) (n : String)
    (d : List VkMemoryType) (es : List JsonValue)
    (h : getMember p n = JsonValue.arrayVal es) :
    GetArrayMemoryType p n d =
      ((es.length : Int),
        updateElemsFrom (fun i x => GetValueMemoryType (.arrayVal es) i x)
          es.length 0 d) := by
  unfold GetArrayMemoryType
  rw [h]

theorem GetArrayMemoryHeap_array (p : JsonValue) (n : String)
    (d : List VkMemoryHeap) (es : List JsonValue)
    (h : getMember p n = JsonValue.arrayVal es) :
    GetArrayMemoryHeap p n d =
      ((es.length : Int),
        updateElemsFrom (fun i x => GetValueMemoryHeap (.arrayVal es) i x)
          es.length 0 d) := by
  unfold GetArrayMemoryHeap
  rw [h]

theorem GetArrayQueueFamilyProperties_array (p : JsonValue) (n : String)
    (d : List VkQueueFamilyProperties) (es : List JsonValue)
    (h : getMember p n = JsonValue.arrayVal es) :
    GetArrayQueueFamilyProperties p n d =
      ((es.length : Int),
        (List.range es.length).map
          (fun i => GetValueQueueFamilyProperties (.arrayVal es) i {})) := by
  unfold GetArrayQueueFamilyProperties
  rw [h]
  simp

theorem updateElemsFrom_length {α : Type} (f : Nat → α → α) (n : Nat) :
    ∀ (k : Nat) (xs : List α), (updateElemsFrom f n k xs).length = xs.length := by
  intro k xs
  induction xs generalizing k with
  | nil => rfl
  | cons x xs ih => simp [updateElemsFrom, ih]

theorem updateElemsFrom_idem {α : Type} (f : Nat → α → α) (n : Nat)
    (hf : ∀ i x, f i (f i x) = f i x) :
    ∀ (k : Nat) (xs : List α),
      updateElemsFrom f n k (updateElemsFrom f n k xs) = updateElemsFrom f n k xs := by
  intro k xs
  induction xs generalizing k with
  | nil => rfl
  | cons x xs ih =>
      by_cases h : k < n <;> simp [updateElemsFrom, h, hf, ih]

theorem updateElemsFrom_getD {α : Type} (f : Nat → α → α) (n : Nat) :
    ∀ (xs : List α) (k i : Nat) (d : α),
      (updateElemsFrom f n k xs).getD i d =
        if i < xs.length ∧ k + i < n then f (k + i) (xs.getD i d)
        else xs.getD i d := by
  intro xs
  induction xs with
  | nil => intro k i d; simp [updateElemsFrom]
  | cons x xs ih =>
      intro k i d
      cases i with
      | zero => by_cases h : k < n <;> simp [updateElemsFrom, h]
      | succ i =>
          have harith : k + (i + 1) = (k + 1) + i := by omega
          simp only [updateElemsFrom, List.getD_cons_succ, List.length_cons,
            harith, Nat.add_lt_add_iff_right]
          exact ih (k + 1) i d

theorem GetValueExtent3D_idem (p : JsonValue) (n : String) (d : VkExtent3D) :
    GetValueExtent3D p n (GetValueExtent3D p n d) = GetValueExtent3D p n d := by
  by_cases h : (getMember p n).typeOf = JsonType.objectValue <;>
    simp [GetValueExtent3D, h, GetValueU32_idem]

theorem GetValueMemoryType_idem (p : JsonValue) (i : Nat) (d : VkMemoryType) :
    GetValueMemoryType p i (GetValueMemoryType p i d) = GetValueMemoryType p i d := by
  by_cases h : (getIndex p i).typeOf = JsonType.objectValue <;>
    simp [GetValueMemoryType, h, GetValueU32_idem]

theorem GetValueMemoryHeap_idem (p : JsonValue) (i : Nat) (d : VkMemoryHeap) :
    GetValueMemoryHeap p i (GetValueMemoryHeap p i d) = GetValueMemoryHeap p i d := by
  by_cases h : (getIndex p i).typeOf = JsonType.objectValue <;>
    simp [GetValueMemoryHeap, h, GetValueU32_idem, GetValueU64Warn_fst_idem]

theorem GetValueSparseProperties_idem (p : JsonValue) (n : String)
    (d : VkPhysicalDeviceSparseProperties) :
    GetValueSparseProperties p n (GetValueSparseProperties p n d) =
      GetValueSparseProperties p n d := by
  by_cases h : (getMember p n).typeOf = JsonType.objectValue <;>
    simp [GetValueSparseProperties, h, GetValueU32_idem]

theorem GetArrayU32_snd_idem (p : JsonValue) (n : String) (d : List Nat) :
    (GetArrayU32 p n (GetArrayU32 p n d).2).2 = (GetArrayU32 p n d).2 := by
  rcases arrayVal_or_not (getMember p n) with ⟨es, hes⟩ | hno
  · unfold GetArrayU32; rw [hes]; simp [listOverlay_idem]
  · rw [GetArrayU32_not_array p n d hno, GetArrayU32_not_array p n _ hno]

theorem GetArrayFloat_snd_idem (p : JsonValue) (n : String) (d : List ℚ) :
    (GetArrayFloat p n (GetArrayFloat p n d).2).2 = (GetArrayFloat p n d).2 := by
  rcases arrayVal_or_not (getMember p n) with ⟨es, hes⟩ | hno
  · unfold GetArrayFloat; rw [hes]; simp [listOverlay_idem]
  · rw [GetArrayFloat_not_array p n d hno, GetArrayFloat_not_array p n _ hno]

theorem GetArrayU8_snd_idem (p : JsonValue) (n : String) (d : List Nat) :
    (GetArrayU8 p n (GetArrayU8 p n d).2).2 = (GetArrayU8 p n d).2 := by
  rcases arrayVal_or_not (getMember p n) with ⟨es, hes⟩ | hno
  · unfold GetArrayU8; rw [hes]; simp [listOverlay_idem]
  · rw [GetArrayU8_not_array p n d hno, GetArrayU8_not_array p n _ hno]

theorem GetArrayString_snd_idem (p : JsonValue) (n : String) (d : String) :
    (GetArrayString p n (GetArrayString p n d).2).2 = (GetArrayString p n d).2 := by
  by_cases h : (getMember p n).isString <;> simp [GetArrayString, h]

theorem GetValueLimits_idem (p : JsonValue) (n : String) (d : VkPhysicalDeviceLimits) :
    GetValueLimits p n (GetValueLimits p n d) = GetValueLimits p n d := by
  by_cases h : (getMember p n).typeOf = JsonType.objectValue <;>
    simp [GetValueLimits, h, GetValueU32_idem, GetValueU32Warn_fst_idem,
      GetValueU64_idem, GetValueI32_idem, GetValueFloat_idem,
      GetArrayU32_snd_idem, GetArrayFloat_snd_idem]

theorem GetValueFeatures_idem (p : JsonValue) (n : String)
    (d : VkPhysicalDeviceFeatures) :
    GetValueFeatures p n (GetValueFeatures p n d) = GetValueFeatures p n d := by
  by_cases h : (getMember p n).typeOf = JsonType.objectValue <;>
    simp [GetValueFeatures, h, GetValueU32_idem]

theorem GetValueProperties_idem (p : JsonValue) (n : String)
    (d : VkPhysicalDeviceProperties) :
    GetValueProperties p n (GetValueProperties p n d) = GetValueProperties p n d := by
  by_cases h : (getMember p n).typeOf = JsonType.objectValue <;>
    simp [GetValueProperties, h, GetValueU32_idem, GetValueEnum_idem,
      GetArrayString_snd_idem, GetArrayU8_snd_idem, GetValueLimits_idem,
      GetValueSparseProperties_idem]

theorem GetArrayMemoryType_snd_idem (p : JsonValue) (n : String)
    (d : List VkMemoryType) :
    (GetArrayMemoryType p n (GetArrayMemoryType p n d).2).2 =
      (GetArrayMemoryType p n d).2 := by
  rcases arrayVal_or_not (getMember p n) with ⟨es, hes⟩ | hno
  · rw [GetArrayMemoryType_array p n d es hes,
      GetArrayMemoryType_array p n _ es hes]
    exact updateElemsFrom_idem _ _ (fun i x => GetValueMemoryType_idem _ i x) 0 d
  · rw [GetArrayMemoryType_not_array p n d hno, GetArrayMemoryType_not_array p n _ hno]

theorem GetArrayMemoryHeap_snd_idem (p : JsonValue) (n : String)
    (d : List VkMemoryHeap) :
    (GetArrayMemoryHeap p n (GetArrayMemoryHeap p n d).2).2 =
      (GetArrayMemoryHeap p n d).2 := by
  rcases arrayVal_or_not (getMember p n) with ⟨es, hes⟩ | hno
  · rw [GetArrayMemoryHeap_array p n d es hes,
      GetArrayMemoryHeap_array p n _ es hes]
    exact updateElemsFrom_idem _ _ (fun i x => GetValueMemoryHeap_idem _ i x) 0 d
  · rw [GetArrayMemoryHeap_not_array p n d hno, GetArrayMemoryHeap_not_array p n _ hno]

theorem GetArrayQueueFamilyProperties_snd_idem (p : JsonValue) (n : String)
    (d : List VkQueueFamilyProperties) :
    (GetArrayQueueFamilyProperties p n (GetArrayQueueFamilyProperties p n d).2).2 =
      (GetArrayQueueFamilyProperties p n d).2 := by
  rcases arrayVal_or_not (getMember p n) with ⟨es, hes⟩ | hno
  · rw [GetArrayQueueFamilyProperties_array p n d es hes,
      GetArrayQueueFamilyProperties_array p n _ es hes]
  · rw [GetArrayQueueFamilyProperties_not_array p n d hno,
      GetArrayQueueFamilyProperties_not_array p n _ hno]

theorem GetValueMemoryProperties_fst_idem (p : JsonValue) (n : String)
    (d : VkPhysicalDeviceMemoryProperties) :
    (GetValueMemoryProperties p n (GetValueMemoryProperties p n d).1).1 =
      (GetValueMemoryProperties p n d).1 := by
  by_cases h : (getMember p n).typeOf = JsonType.objectValue
  · unfold GetValueMemoryProperties
    simp only [h, if_true]
    rcases arrayVal_or_not (getMember (getMember p n) "memoryHeaps") with ⟨hs, hhs⟩ | hhno
    · rcases arrayVal_or_not (getMember (getMember p n) "memoryTypes") with ⟨ts, hts⟩ | htno
      · simp [GetArrayMemoryHeap_array _ _ _ _ hhs, GetArrayMemoryType_array _ _ _ _ hts,
          updateElemsFrom_idem _ _ (fun i x => GetValueMemoryHeap_idem _ i x),
          updateElemsFrom_idem _ _ (fun i x => GetValueMemoryType_idem _ i x)]
      · simp [GetArrayMemoryHeap_array _ _ _ _ hhs,
          GetArrayMemoryType_not_array _ _ _ htno,
          updateElemsFrom_idem _ _ (fun i x => GetValueMemoryHeap_idem _ i x)]
    · rcases arrayVal_or_not (getMember (getMember p n) "memoryTypes") with ⟨ts, hts⟩ | htno
      · simp [GetArrayMemoryHeap_not_array _ _ _ hhno,
          GetArrayMemoryType_array _ _ _ _ hts,
          updateElemsFrom_idem _ _ (fun i x => GetValueMemoryType_idem _ i x)]
      · simp [GetArrayMemoryHeap_not_array _ _ _ hhno,
          GetArrayMemoryType_not_array _ _ _ htno]
  · simp [GetValueMemoryProperties, h]

theorem getD_range_map {α : Type} (g : Nat → α) (n i : Nat) (d : α) :
    ((List.range n).map g).getD i d = if i < n then g i else d := by
  by_cases h : i < n
  · simp [List.getD_eq_getElem?_getD, List.getElem?_map, List.getElem?_range, h]
  · have hnone : (List.range n)[i]? = none := by
      rw [List.getElem?_eq_none]; simpa using Nat.le_of_not_lt h
    simp [List.getD_eq_getElem?_getD, List.getElem?_map, hnone, h]

theorem GetValueMemoryProperties_not_object (p : JsonValue) (n : String)
    (d : VkPhysicalDeviceMemoryProperties)
    (h : (getMember p n).typeOf ≠ JsonType.objectValue) :
    GetValueMemoryProperties p n d = (d, []) := by
  simp [GetValueMemoryProperties, h]

theorem GetValueMemoryProperties_heaps_spec (p : JsonValue) (n : String)
    (d : VkPhysicalDeviceMemoryProperties) (hs : List JsonValue)
    (hobj : (getMember p n).typeOf = JsonType.objectValue)
    (hhs : getMember (getMember p n) "memoryHeaps" = JsonValue.arrayVal hs) :
    (GetValueMemoryProperties p n d).1.memoryHeapCount = hs.length ∧
    (GetValueMemoryProperties p n d).1.memoryHeaps =
      updateElemsFrom (fun i x => GetValueMemoryHeap (.arrayVal hs) i x)
        hs.length 0 d.memoryHeaps := by
  unfold GetValueMemoryProperties
  simp only [hobj, if_true, GetArrayMemoryHeap_array _ _ _ _ hhs]
  rcases arrayVal_or_not (getMember (getMember p n) "memoryTypes") with ⟨ts, hts⟩ | htno
  · simp [GetArrayMemoryType_array _ _ _ _ hts, ge_iff_le, Int.natCast_nonneg]
  · simp [GetArrayMemoryType_not_array _ _ _ htno, ge_iff_le, Int.natCast_nonneg]

theorem GetValueMemoryProperties_heaps_noarray (p : JsonValue) (n : String)
    (d : VkPhysicalDeviceMemoryProperties)
    (hobj : (getMember p n).typeOf = JsonType.objectValue)
    (hhno : (getMember (getMember p n) "memoryHeaps").typeOf ≠ JsonType.arrayValue) :
    (GetValueMemoryProperties p n d).1.memoryHeapCount = d.memoryHeapCount ∧
    (GetValueMemoryProperties p n d).1.memoryHeaps = d.memoryHeaps := by
  unfold GetValueMemoryProperties
  simp only [hobj, if_true, GetArrayMemoryHeap_not_array _ _ _ hhno]
  rcases arrayVal_or_not (getMember (getMember p n) "memoryTypes") with ⟨ts, hts⟩ | htno
  · simp [GetArrayMemoryType_array _ _ _ _ hts, ge_iff_le, Int.natCast_nonneg]
  · simp [GetArrayMemoryType_not_array _ _ _ htno, ge_iff_le, Int.natCast_nonneg]

theorem GetValueMemoryProperties_types_spec (p : JsonValue) (n : String)
    (d : VkPhysicalDeviceMemoryProperties) (ts : List JsonValue)
    (hobj : (getMember p n).typeOf = JsonType.objectValue)
    (hts : getMember (getMember p n) "memoryTypes" = JsonValue.arrayVal ts) :
    (GetValueMemoryProperties p n d).1.memoryTypeCount = ts.length ∧
    (GetValueMemoryProperties p n d).1.memoryTypes =
      updateElemsFrom (fun i x => GetValueMemoryType (.arrayVal ts) i x)
        ts.length 0 d.memoryTypes ∧
    (GetValueMemoryProperties p n d).2 =
      ((List.range ts.length).filter
          (fun i => decide ((GetValueMemoryProperties p n d).1.memoryHeapCount ≤
            (((GetValueMemoryProperties p n d).1.memoryTypes).getD i {}).heapIndex))).map
        (fun i => (i, (((GetValueMemoryProperties p n d).1.memoryTypes).getD i {}).heapIndex,
          (GetValueMemoryProperties p n d).1.memoryHeapCount)) := by
  unfold GetValueMemoryProperties
  simp only [hobj, if_true, GetArrayMemoryType_array _ _ _ _ hts]
  simp [ge_iff_le, Int.natCast_nonneg]

theorem GetValueMemoryProperties_types_noarray (p : JsonValue) (n : String)
    (d : VkPhysicalDeviceMemoryProperties)
    (hobj : (getMember p n).typeOf = JsonType.objectValue)
    (htno : (getMember (getMember p n) "memoryTypes").typeOf ≠ JsonType.arrayValue) :
    (GetValueMemoryProperties p n d).1.memoryTypeCount = d.memoryTypeCount ∧
    (GetValueMemoryProperties p n d).1.memoryTypes = d.memoryTypes ∧
    (GetValueMemoryProperties p n d).2 = [] := by
  unfold GetValueMemoryProperties
  simp only [hobj, if_true, GetArrayMemoryType_not_array _ _ _ htno]
  simp

theorem LoadFile_fst_true (root : JsonValue) (pdd : PhysicalDeviceData)
    (h1 : root.typeOf = JsonType.objectValue)
    (h2 : IdentifySchema (getMember root "$schema") = SchemaId.kDevsim100) :
    (LoadFile root pdd).1 = true := by
  simp [LoadFile, h1, h2]

theorem getD_take_of_lt {α : Type} (xs : List α) (c i : Nat) (d : α) (h : i < c) :
    (xs.take c).getD i d = xs.getD i d := by
  simp [List.getD_eq_getElem?_getD, List.getElem?_take, h]

theorem listOverlay_getD_of_lt {α : Type} (src buf : List α) (i : Nat) (d : α)
    (h : i < src.length) :
    (listOverlay src buf).getD i d = src.getD i d := by
  simp [listOverlay, List.getD_eq_getElem?_getD, List.getElem?_append, h]

theorem listOverlay_getD_of_ge {α : Type} (src buf : List α) (j : Nat) (d : α)
    (h : src.length ≤ j) :
    (listOverlay src buf).getD j d = buf.getD j d := by
  have h2 : src.length + (j - src.length) = j := by omega
  unfold listOverlay
  rw [List.getD_eq_getElem?_getD, List.getElem?_append_right h, List.getElem?_drop, h2,
    ← List.getD_eq_getElem?_getD]

/-- C1: for every document whose schema identifier is missing, is not a
string, or names an unrecognized schema version, LoadFile returns failure
and the capability record is exactly as it was before the call (the pair
returned is (false, pdd) with the record untouched).  The first conjunct is
the general gate; the remaining conjuncts instantiate it for the three ways
the claim enumerates: member absent, member not a string, string not the
recognized URI. -/
theorem devsim_schema_gating (root : JsonValue) (pdd : PhysicalDeviceData) :
    (IdentifySchema (getMember root "$schema") = SchemaId.kUnknown →
      LoadFile root pdd = (false, pdd))
    ∧ (∀ members, root = JsonValue.objectVal members →
        members.lookup "$schema" = none → LoadFile root pdd = (false, pdd))
    ∧ ((getMember root "$schema").isString = false → LoadFile root pdd = (false, pdd))
    ∧ (∀ s, getMember root "$schema" = JsonValue.stringVal s → s ≠ kDevsim100Uri →
        LoadFile root pdd = (false, pdd)) := by
  have main : IdentifySchema (getMember root "$schema") = SchemaId.kUnknown →
      LoadFile root pdd = (false, pdd) := by
    intro h
    by_cases hr : root.typeOf = JsonType.objectValue <;> simp [LoadFile, hr, h]
  refine ⟨main, ?_, ?_, ?_⟩
  · intro members hm hl
    apply main
    simp [IdentifySchema, getMember, hm, hl, JsonValue.isString]
  · intro h
    apply main
    simp [IdentifySchema, h]
  · intro s hs hne
    apply main
    simp [IdentifySchema, hs, JsonValue.isString, JsonValue.asCString, hne]

/-- Witness for C1: the three failing schema shapes at concrete inputs, all
leaving the default record untouched. -/
theorem devsim_schema_gating_witness :
    LoadFile (JsonValue.objectVal [("$schema", JsonValue.intVal 4)]) {} =
      (false, ({} : PhysicalDeviceData))
    ∧ LoadFile (JsonValue.objectVal [("other", JsonValue.intVal 1)]) {} =
      (false, ({} : PhysicalDeviceData))
    ∧ LoadFile (JsonValue.objectVal
        [("$schema", JsonValue.stringVal "https://example.org/other_schema.json#")]) {} =
      (false, ({} : PhysicalDeviceData)) :=
  ⟨(devsim_schema_gating _ _).2.2.1 rfl,
   (devsim_schema_gating _ _).2.1 _ rfl rfl,
   (devsim_schema_gating _ _).2.2.2 _ rfl (by decide)⟩

/-- C2: every scalar leaf decode (float, int32, uint32 plain and guarded,
uint64 plain and guarded, enum) is a silent no-op when the node fails its
type test; an absent member reads as the null node, which fails every one
of those type tests.  The guarded variants additionally report that no
diagnostic fired. -/
theorem scalar_leaf_sparse_overlay (parent : JsonValue) (name : String)
    (df : ℚ) (di de : Int) (du d64 : Nat) :
    ((getMember parent name).isDouble = false → GetValueFloat parent name df = df)
    ∧ ((getMember parent name).isInt = false → GetValueI32 parent name di = di)
    ∧ ((getMember parent name).isUInt = false →
        GetValueU32 parent name du = du ∧ GetValueU32Warn parent name du = (du, false))
    ∧ ((getMember parent name).isUInt64 = false →
        GetValueU64 parent name d64 = d64 ∧ GetValueU64Warn parent name d64 = (d64, false))
    ∧ ((getMember parent name).isInt = false → GetValueEnum parent name de = de)
    ∧ (∀ members, parent = JsonValue.objectVal members → members.lookup name = none →
        getMember parent name = JsonValue.nullVal)
    ∧ (JsonValue.nullVal.isDouble = false ∧ JsonValue.nullVal.isInt = false
        ∧ JsonValue.nullVal.isUInt = false ∧ JsonValue.nullVal.isUInt64 = false) := by
  refine ⟨?_, ?_, ?_, ?_, ?_, ?_, by decide⟩
  · intro h; simp [GetValueFloat, h]
  · intro h; simp [GetValueI32, h]
  · intro h; simp [GetValueU32, GetValueU32Warn, h]
  · intro h; simp [GetValueU64, GetValueU64Warn, h]
  · intro h; simp [GetValueEnum, h]
  · intro members hm hl; simp [getMember, hm, hl]

/-- Witness for C2: a string node fails every numeric type test and leaves
each destination unchanged with no diagnostic; an absent member reads as
null. -/
theorem scalar_leaf_sparse_overlay_witness :
    GetValueFloat (JsonValue.objectVal [("f", JsonValue.stringVal "mismatch")]) "f" 3 = 3
    ∧ GetValueI32 (JsonValue.objectVal [("f", JsonValue.stringVal "mismatch")]) "f" (-7) = -7
    ∧ (GetValueU32 (JsonValue.objectVal [("f", JsonValue.stringVal "mismatch")]) "f" 9 = 9
        ∧ GetValueU32Warn (JsonValue.objectVal [("f", JsonValue.stringVal "mismatch")]) "f" 9 = (9, false))
    ∧ (GetValueU64 (JsonValue.objectVal [("f", JsonValue.stringVal "mismatch")]) "f" 11 = 11
        ∧ GetValueU64Warn (JsonValue.objectVal [("f", JsonValue.stringVal "mismatch")]) "f" 11 = (11, false))
    ∧ GetValueEnum (JsonValue.objectVal [("f", JsonValue.stringVal "mismatch")]) "f" 2 = 2
    ∧ getMember (JsonValue.objectVal []) "f" = JsonValue.nullVal :=
  ⟨(scalar_leaf_sparse_overlay _ "f" 3 (-7) 2 9 11).1 rfl,
   (scalar_leaf_sparse_overlay _ "f" 3 (-7) 2 9 11).2.1 rfl,
   (scalar_leaf_sparse_overlay _ "f" 3 (-7) 2 9 11).2.2.1 rfl,
   (scalar_leaf_sparse_overlay _ "f" 3 (-7) 2 9 11).2.2.2.1 rfl,
   (scalar_leaf_sparse_overlay _ "f" 3 (-7) 2 9 11).2.2.2.2.1 rfl,
   (scalar_leaf_sparse_overlay (JsonValue.objectVal []) "f" 3 (-7) 2 9 11).2.2.2.2.2.1 [] rfl rfl⟩

/-- C4: for a guarded limit field whose node passes the uint32 type test,
the field is overwritten with the decoded value unconditionally, and the
advisory diagnostic fires exactly when the new value exceeds the current
one; and the load outcome never depends on the record contents at all, so
neither the comparison nor the diagnostic can affect it. -/
theorem guarded_limit_advisory_policy (parent : JsonValue) (name : String) (dest : Nat) :
    ((getMember parent name).isUInt = true →
      (GetValueU32Warn parent name dest).1 = (getMember parent name).asUInt
      ∧ ((GetValueU32Warn parent name dest).2 = true ↔
          dest < (getMember parent name).asUInt))
    ∧ (∀ (root : JsonValue) (pdd1 pdd2 : PhysicalDeviceData),
        (LoadFile root pdd1).1 = (LoadFile root pdd2).1) := by
  constructor
  · intro h
    simp [GetValueU32Warn, h, WarnIfGreater]
  · intro root p1 p2
    by_cases hr : root.typeOf = JsonType.objectValue
    · cases hs : IdentifySchema (getMember root "$schema") <;> simp [LoadFile, hr, hs]
    · simp [LoadFile, hr]

/-- Witness for C4: an increase (5 to 10) stores 10 and its diagnostic
condition holds, a decrease (20 to 10) stores 10 and its diagnostic
condition is false, and the load outcome is the same over two different
records. -/
theorem guarded_limit_advisory_policy_witness :
    ((GetValueU32Warn (JsonValue.objectVal [("maxBoundDescriptorSets", JsonValue.intVal 10)])
        "maxBoundDescriptorSets" 5).1 = 10
      ∧ ((GetValueU32Warn (JsonValue.objectVal [("maxBoundDescriptorSets", JsonValue.intVal 10)])
        "maxBoundDescriptorSets" 5).2 = true ↔ 5 < 10))
    ∧ ((GetValueU32Warn (JsonValue.objectVal [("maxBoundDescriptorSets", JsonValue.intVal 10)])
        "maxBoundDescriptorSets" 20).1 = 10
      ∧ ((GetValueU32Warn (JsonValue.objectVal [("maxBoundDescriptorSets", JsonValue.intVal 10)])
        "maxBoundDescriptorSets" 20).2 = true ↔ 20 < 10))
    ∧ (LoadFile (JsonValue.objectVal []) {}).1 =
        (LoadFile (JsonValue.objectVal [])
          { physical_device_properties_ := { apiVersion := 1 } }).1 :=
  ⟨(guarded_limit_advisory_policy _ "maxBoundDescriptorSets" 5).1 rfl,
   (guarded_limit_advisory_policy _ "maxBoundDescriptorSets" 20).1 rfl,
   (guarded_limit_advisory_policy (JsonValue.objectVal []) "x" 0).2 _ _ _⟩

/-- Scenario document with one memory heap and one well-formed memory type
referencing it (heap index 0). -/
def docScenarioB : JsonValue := JsonValue.objectVal
  [("$schema", JsonValue.stringVal kDevsim100Uri),
   ("VkPhysicalDeviceMemoryProperties", JsonValue.objectVal
     [("memoryHeaps", JsonValue.arrayVal
        [JsonValue.objectVal [("size", JsonValue.intVal 100), ("flags", JsonValue.intVal 0)]]),
      ("memoryTypes", JsonValue.arrayVal
        [JsonValue.objectVal [("propertyFlags", JsonValue.intVal 1), ("heapIndex", JsonValue.intVal 0)]])])]

/-- Scenario document like docScenarioB but with heap index 5, beyond the
single decoded heap. -/
def docScenarioC : JsonValue := JsonValue.objectVal
  [("$schema", JsonValue.stringVal kDevsim100Uri),
   ("VkPhysicalDeviceMemoryProperties", JsonValue.objectVal
     [("memoryHeaps", JsonValue.arrayVal
        [JsonValue.objectVal [("size", JsonValue.intVal 100), ("flags", JsonValue.intVal 0)]]),
      ("memoryTypes", JsonValue.arrayVal
        [JsonValue.objectVal [("propertyFlags", JsonValue.intVal 1), ("heapIndex", JsonValue.intVal 5)]])])]

/-- C7: for every document that loads with success, loading it a second time
into the resulting record succeeds again and leaves the record exactly as
after the first load. -/
theorem well_formed_load_idempotent (root : JsonValue) (pdd : PhysicalDeviceData)
    (h : (LoadFile root pdd).1 = true) :
    LoadFile root (LoadFile root pdd).2 = (true, (LoadFile root pdd).2) := by
  by_cases hr : root.typeOf = JsonType.objectValue
  · cases hs : IdentifySchema (getMember root "$schema")
    · simp [LoadFile, hr, hs] at h
    · simp [LoadFile, hr, hs, GetValueProperties_idem, GetValueFeatures_idem,
        GetValueMemoryProperties_fst_idem, GetArrayQueueFamilyProperties_snd_idem]
  · simp [LoadFile, hr] at h

/-- Witness for C7: the scenario document with an out-of-range heap index
loads successfully and a second load reproduces the same record. -/
theorem well_formed_load_idempotent_witness :
    LoadFile docScenarioC (LoadFile docScenarioC {}).2 =
      (true, (LoadFile docScenarioC {}).2) :=
  well_formed_load_idempotent docScenarioC {} rfl

/-- C8: for a queue-family source array, decoding produces one entry per
source element even when some element is malformed: a non-object element
contributes the zero-initialized descriptor at its position, and every
position holds the decode of its own source element into a fresh zero
descriptor. -/
theorem queue_family_best_effort (parent : JsonValue) (name : String)
    (dest : List VkQueueFamilyProperties) (es : List JsonValue) (i : Nat)
    (hes : getMember parent name = JsonValue.arrayVal es) :
    (GetArrayQueueFamilyProperties parent name dest).2.length = es.length
    ∧ (i < es.length → (getIndex (JsonValue.arrayVal es) i).typeOf ≠ JsonType.objectValue →
        (GetArrayQueueFamilyProperties parent name dest).2.getD i {} =
          ({} : VkQueueFamilyProperties))
    ∧ (i < es.length →
        (GetArrayQueueFamilyProperties parent name dest).2.getD i {} =
          GetValueQueueFamilyProperties (JsonValue.arrayVal es) i {}) := by
  rw [GetArrayQueueFamilyProperties_array parent name dest es hes]
  refine ⟨by simp, ?_, ?_⟩
  · intro hi hmal
    rw [getD_range_map]
    simp [hi, GetValueQueueFamilyProperties, hmal]
  · intro hi
    rw [getD_range_map]
    simp [hi]

/-- Witness for C8: a two-element array whose first element is a number (not
an object) still yields two entries, the first zero-initialized, the second
decoded from its object. -/
theorem queue_family_best_effort_witness :
    (GetArrayQueueFamilyProperties (JsonValue.objectVal
      [("ArrayOfVkQueueFamilyProperties", JsonValue.arrayVal
        [JsonValue.intVal 3, JsonValue.objectVal [("queueCount", JsonValue.intVal 4)]])])
      "ArrayOfVkQueueFamilyProperties" []).2.length = 2
    ∧ (GetArrayQueueFamilyProperties (JsonValue.objectVal
      [("ArrayOfVkQueueFamilyProperties", JsonValue.arrayVal
        [JsonValue.intVal 3, JsonValue.objectVal [("queueCount", JsonValue.intVal 4)]])])
      "ArrayOfVkQueueFamilyProperties" []).2.getD 0 {} = ({} : VkQueueFamilyProperties)
    ∧ (GetArrayQueueFamilyProperties (JsonValue.objectVal
      [("ArrayOfVkQueueFamilyProperties", JsonValue.arrayVal
        [JsonValue.intVal 3, JsonValue.objectVal [("queueCount", JsonValue.intVal 4)]])])
      "ArrayOfVkQueueFamilyProperties" []).2.getD 1 {} =
        ({ queueCount := 4 } : VkQueueFamilyProperties) :=
  ⟨(queue_family_best_effort (JsonValue.objectVal
      [("ArrayOfVkQueueFamilyProperties", JsonValue.arrayVal
        [JsonValue.intVal 3, JsonValue.objectVal [("queueCount", JsonValue.intVal 4)]])])
      "ArrayOfVkQueueFamilyProperties" []
      [JsonValue.intVal 3, JsonValue.objectVal [("queueCount", JsonValue.intVal 4)]] 0 rfl).1,
   (queue_family_best_effort (JsonValue.objectVal
      [("ArrayOfVkQueueFamilyProperties", JsonValue.arrayVal
        [JsonValue.intVal 3, JsonValue.objectVal [("queueCount", JsonValue.intVal 4)]])])
      "ArrayOfVkQueueFamilyProperties" []
      [JsonValue.intVal 3, JsonValue.objectVal [("queueCount", JsonValue.intVal 4)]] 0 rfl).2.1
      (by decide) (by decide),
   (queue_family_best_effort (JsonValue.objectVal
      [("ArrayOfVkQueueFamilyProperties", JsonValue.arrayVal
        [JsonValue.intVal 3, JsonValue.objectVal [("queueCount", JsonValue.intVal 4)]])])
      "ArrayOfVkQueueFamilyProperties" []
      [JsonValue.intVal 3, JsonValue.objectVal [("queueCount", JsonValue.intVal 4)]] 1 rfl).2.2
      (by decide)⟩

/-- C9: with a registered capability record the queue-family query never
forwards to the next layer (its outcome does not depend on the chain at
all); a null destination pointer receives only the stored sequence's count,
and the underlying enumeration helper reports success for that count-query
shape; a non-null destination receives the stored record's data verbatim:
the returned count is the number copied, every copied position holds
exactly the stored element at that index, and positions beyond the copy
keep the caller's prior buffer contents. -/
theorem registered_record_serves_queue_families (d : PhysicalDeviceData)
    (next : Nat → Option (List VkQueueFamilyProperties) →
      Nat × Option (List VkQueueFamilyProperties))
    (pCount : Nat) (pProps : Option (List VkQueueFamilyProperties)) :
    ((GetPhysicalDeviceQueueFamilyProperties (some d) next pCount pProps).forwardedToNext
        = false)
    ∧ (∀ next2, GetPhysicalDeviceQueueFamilyProperties (some d) next pCount pProps =
        GetPhysicalDeviceQueueFamilyProperties (some d) next2 pCount pProps)
    ∧ (pProps = none →
        GetPhysicalDeviceQueueFamilyProperties (some d) next pCount pProps =
          { count := d.arrayof_queue_family_properties_.length, buffer := none,
            forwardedToNext := false })
    ∧ (EnumerateProperties d.arrayof_queue_family_properties_.length
        d.arrayof_queue_family_properties_ pCount none =
        (VkResult.success, d.arrayof_queue_family_properties_.length, none))
    ∧ (∀ buf, pProps = some buf →
        (GetPhysicalDeviceQueueFamilyProperties (some d) next pCount pProps =
          { count := min pCount d.arrayof_queue_family_properties_.length,
            buffer := some (listOverlay
              (d.arrayof_queue_family_properties_.take
                (min pCount d.arrayof_queue_family_properties_.length)) buf),
            forwardedToNext := false })
        ∧ (∀ i, i < min pCount d.arrayof_queue_family_properties_.length →
            (listOverlay (d.arrayof_queue_family_properties_.take
                (min pCount d.arrayof_queue_family_properties_.length)) buf).getD i {} =
              d.arrayof_queue_family_properties_.getD i {})
        ∧ (∀ j, min pCount d.arrayof_queue_family_properties_.length ≤ j →
            (listOverlay (d.arrayof_queue_family_properties_.take
                (min pCount d.arrayof_queue_family_properties_.length)) buf).getD j {} =
              buf.getD j {})) := by
  refine ⟨rfl, fun next2 => rfl, ?_, rfl, ?_⟩
  · intro h
    subst h
    rfl
  · intro buf hb
    subst hb
    refine ⟨rfl, ?_, ?_⟩
    · intro i hi
      have hlen : i < (d.arrayof_queue_family_properties_.take
          (min pCount d.arrayof_queue_family_properties_.length)).length := by
        simpa [List.length_take] using (by omega : i < min pCount
          d.arrayof_queue_family_properties_.length ⊓
          d.arrayof_queue_family_properties_.length)
      rw [listOverlay_getD_of_lt _ _ _ _ hlen,
        getD_take_of_lt _ _ _ _ hi]
    · intro j hj
      have hlen : (d.arrayof_queue_family_properties_.take
          (min pCount d.arrayof_queue_family_properties_.length)).length ≤ j := by
        simp only [List.length_take]
        omega
      exact listOverlay_getD_of_ge _ _ _ _ hlen

/-- Witness for C9: a registered record with two queue families.  With a
null destination only the count 2 is returned; with a one-slot fill call
the first stored element lands in the buffer verbatim, the second caller
slot is untouched, and the chain function (which would add 7 to the count)
is visibly ignored in both calls. -/
theorem registered_record_serves_queue_families_witness :
    (GetPhysicalDeviceQueueFamilyProperties
      (some { arrayof_queue_family_properties_ := [{ queueCount := 1 }, {}] })
      (fun c b => (c + 7, b)) 0 none =
      { count := 2, buffer := none, forwardedToNext := false })
    ∧ (GetPhysicalDeviceQueueFamilyProperties
        (some { arrayof_queue_family_properties_ := [{ queueCount := 1 }, {}] })
        (fun c b => (c + 7, b)) 1
        (some [{ queueCount := 8 }, { queueCount := 9 }]) =
        { count := 1,
          buffer := some [{ queueCount := 1 }, { queueCount := 9 }],
          forwardedToNext := false })
    ∧ ((listOverlay (([{ queueCount := 1 }, {}] :
          List VkQueueFamilyProperties).take
          (min 1 ([{ queueCount := 1 }, ({} : VkQueueFamilyProperties)]).length))
          [{ queueCount := 8 }, { queueCount := 9 }]).getD 0 {} =
        ([{ queueCount := 1 }, ({} : VkQueueFamilyProperties)]).getD 0 {})
    ∧ ((listOverlay (([{ queueCount := 1 }, {}] :
          List VkQueueFamilyProperties).take
          (min 1 ([{ queueCount := 1 }, ({} : VkQueueFamilyProperties)]).length))
          [{ queueCount := 8 }, { queueCount := 9 }]).getD 1 {} =
        ([{ queueCount := 8 }, ({ queueCount := 9 } :
          VkQueueFamilyProperties)]).getD 1 {}) :=
  ⟨(registered_record_serves_queue_families
      { arrayof_queue_family_properties_ := [{ queueCount := 1 }, {}] }
      (fun c b => (c + 7, b)) 0 none).2.2.1 rfl,
   ((registered_record_serves_queue_families
      { arrayof_queue_family_properties_ := [{ queueCount := 1 }, {}] }
      (fun c b => (c + 7, b)) 1
      (some [{ queueCount := 8 }, { queueCount := 9 }])).2.2.2.2
      [{ queueCount := 8 }, { queueCount := 9 }] rfl).1,
   ((registered_record_serves_queue_families
      { arrayof_queue_family_properties_ := [{ queueCount := 1 }, {}] }
      (fun c b => (c + 7, b)) 1
      (some [{ queueCount := 8 }, { queueCount := 9 }])).2.2.2.2
      [{ queueCount := 8 }, { queueCount := 9 }] rfl).2.1 0 (by decide),
   ((registered_record_serves_queue_families
      { arrayof_queue_family_properties_ := [{ queueCount := 1 }, {}] }
      (fun c b => (c + 7, b)) 1
      (some [{ queueCount := 8 }, { queueCount := 9 }])).2.2.2.2
      [{ queueCount := 8 }, { queueCount := 9 }] rfl).2.2 1 (by decide)⟩

/-- C5: when the memory section is an object containing a memory-types
array, every decoded memory type whose stored heap index is at or beyond the
record's heap count appears in the advisory diagnostic list with exactly
that out-of-range index (the record keeps it; the diagnostic is computed
after the decode and changes nothing); and a recognized-schema load still
reports success. -/
theorem heap_index_out_of_range_warns (parent : JsonValue) (name : String)
    (dest : VkPhysicalDeviceMemoryProperties) (ts : List JsonValue) (i : Nat)
    (hobj : (getMember parent name).typeOf = JsonType.objectValue)
    (hts : getMember (getMember parent name) "memoryTypes" = JsonValue.arrayVal ts) :
    (i < (GetValueMemoryProperties parent name dest).1.memoryTypeCount →
      (GetValueMemoryProperties parent name dest).1.memoryHeapCount ≤
        (((GetValueMemoryProperties parent name dest).1.memoryTypes).getD i {}).heapIndex →
      (i, (((GetValueMemoryProperties parent name dest).1.memoryTypes).getD i {}).heapIndex,
        (GetValueMemoryProperties parent name dest).1.memoryHeapCount)
        ∈ (GetValueMemoryProperties parent name dest).2)
    ∧ (∀ root pdd, root.typeOf = JsonType.objectValue →
        IdentifySchema (getMember root "$schema") = SchemaId.kDevsim100 →
        (LoadFile root pdd).1 = true) := by
  obtain ⟨hcount, htypes, hwarn⟩ :=
    GetValueMemoryProperties_types_spec parent name dest ts hobj hts
  constructor
  · intro hi hge
    rw [hwarn]
    apply List.mem_map.mpr
    refine ⟨i, List.mem_filter.mpr ⟨List.mem_range.mpr ?_, by simpa using hge⟩, rfl⟩
    rw [← hcount]
    exact hi
  · intro root pdd h1 h2
    exact LoadFile_fst_true root pdd h1 h2

/-- Witness for C5 (scenario C): heap index 5 with one decoded heap yields
the diagnostic triple (0, 5, 1), and the document still loads with
success. -/
theorem heap_index_out_of_range_warns_witness :
    (0, 5, 1) ∈ (GetValueMemoryProperties docScenarioC
      "VkPhysicalDeviceMemoryProperties" {}).2
    ∧ (LoadFile docScenarioC {}).1 = true :=
  ⟨(heap_index_out_of_range_warns docScenarioC "VkPhysicalDeviceMemoryProperties" {}
      [JsonValue.objectVal [("propertyFlags", JsonValue.intVal 1), ("heapIndex", JsonValue.intVal 5)]]
      0 rfl rfl).1 (by decide) (by decide),
   (heap_index_out_of_range_warns docScenarioC "VkPhysicalDeviceMemoryProperties" {}
      [JsonValue.objectVal [("propertyFlags", JsonValue.intVal 1), ("heapIndex", JsonValue.intVal 5)]]
      0 rfl rfl).2 docScenarioC {} rfl rfl⟩

/-- C6 counterexample: a memory section with a memory-types array but no
memory-heaps member (so zero heap entries are parsed from this document),
decoded over a record whose prior heap count is 10.  The decoded type stores
heap index 5, which is at or beyond the freshly parsed heap length, yet the
diagnostic list is empty: the comparison used the prior count 10, not the
length parsed from this document's heaps array. -/
theorem heap_index_baseline_counterexample :
    getMember (JsonValue.objectVal
        [("memoryTypes", JsonValue.arrayVal
          [JsonValue.objectVal [("heapIndex", JsonValue.intVal 5)]])]) "memoryHeaps"
      = JsonValue.nullVal
    ∧ (GetValueMemoryProperties (JsonValue.objectVal [("m", JsonValue.objectVal
        [("memoryTypes", JsonValue.arrayVal
          [JsonValue.objectVal [("heapIndex", JsonValue.intVal 5)]])])]) "m"
        { memoryHeapCount := 10 }).2 = []
    ∧ ((GetValueMemoryProperties (JsonValue.objectVal [("m", JsonValue.objectVal
        [("memoryTypes", JsonValue.arrayVal
          [JsonValue.objectVal [("heapIndex", JsonValue.intVal 5)]])])]) "m"
        { memoryHeapCount := 10 }).1.memoryTypes.getD 0 {}).heapIndex = 5
    ∧ (GetValueMemoryProperties (JsonValue.objectVal [("m", JsonValue.objectVal
        [("memoryTypes", JsonValue.arrayVal
          [JsonValue.objectVal [("heapIndex", JsonValue.intVal 5)]])])]) "m"
        { memoryHeapCount := 10 }).1.memoryTypeCount = 1
    ∧ (GetValueMemoryProperties (JsonValue.objectVal [("m", JsonValue.objectVal
        [("memoryTypes", JsonValue.arrayVal
          [JsonValue.objectVal [("heapIndex", JsonValue.intVal 5)]])])]) "m"
        { memoryHeapCount := 10 }).1.memoryHeapCount = 10 :=
  ⟨rfl, rfl, rfl, rfl, rfl⟩

/-- C6 amended: the cross-validation compares each decoded type's heap index
against the record's heap-count field at that point of the decode — equal to
the freshly decoded heap length whenever this document contains a heaps
array, and to the prior count otherwise — and it is computed from the fully
decoded memory-type sequence, over exactly the freshly decoded type count. -/
theorem heap_index_crossvalidation_amended (parent : JsonValue) (name : String)
    (dest : VkPhysicalDeviceMemoryProperties) (hs ts : List JsonValue)
    (hobj : (getMember parent name).typeOf = JsonType.objectValue)
    (hts : getMember (getMember parent name) "memoryTypes" = JsonValue.arrayVal ts) :
    ((GetValueMemoryProperties parent name dest).2 =
      ((List.range ts.length).filter
          (fun i => decide ((GetValueMemoryProperties parent name dest).1.memoryHeapCount ≤
            (((GetValueMemoryProperties parent name dest).1.memoryTypes).getD i {}).heapIndex))).map
        (fun i => (i, (((GetValueMemoryProperties parent name dest).1.memoryTypes).getD i {}).heapIndex,
          (GetValueMemoryProperties parent name dest).1.memoryHeapCount)))
    ∧ (getMember (getMember parent name) "memoryHeaps" = JsonValue.arrayVal hs →
        (GetValueMemoryProperties parent name dest).1.memoryHeapCount = hs.length)
    ∧ (∀ i, ((GetValueMemoryProperties parent name dest).1.memoryTypes).getD i {} =
        if i < dest.memoryTypes.length ∧ i < ts.length then
          GetValueMemoryType (JsonValue.arrayVal ts) i (dest.memoryTypes.getD i {})
        else dest.memoryTypes.getD i {}) := by
  obtain ⟨hcount, htypes, hwarn⟩ :=
    GetValueMemoryProperties_types_spec parent name dest ts hobj hts
  refine ⟨hwarn, ?_, ?_⟩
  · intro hhs
    exact (GetValueMemoryProperties_heaps_spec parent name dest hs hobj hhs).1
  · intro i
    rw [htypes, updateElemsFrom_getD]
    simp

/-- Witness for the amended C6: on scenario C the diagnostic list matches the
characterization, the heap count is the freshly parsed length 1, and the
compared element is the decoded one. -/
theorem heap_index_crossvalidation_amended_witness :
    (GetValueMemoryProperties docScenarioC "VkPhysicalDeviceMemoryProperties" {}).2
      = [(0, 5, 1)]
    ∧ (GetValueMemoryProperties docScenarioC
        "VkPhysicalDeviceMemoryProperties" {}).1.memoryHeapCount = 1
    ∧ ((GetValueMemoryProperties docScenarioC
        "VkPhysicalDeviceMemoryProperties" {}).1.memoryTypes).getD 0 {} =
        ({ propertyFlags := 1, heapIndex := 5 } : VkMemoryType) :=
  ⟨(heap_index_crossvalidation_amended docScenarioC "VkPhysicalDeviceMemoryProperties" {}
      [JsonValue.objectVal [("size", JsonValue.intVal 100), ("flags", JsonValue.intVal 0)]]
      [JsonValue.objectVal [("propertyFlags", JsonValue.intVal 1), ("heapIndex", JsonValue.intVal 5)]]
      rfl rfl).1,
   (heap_index_crossvalidation_amended docScenarioC "VkPhysicalDeviceMemoryProperties" {}
      [JsonValue.objectVal [("size", JsonValue.intVal 100), ("flags", JsonValue.intVal 0)]]
      [JsonValue.objectVal [("propertyFlags", JsonValue.intVal 1), ("heapIndex", JsonValue.intVal 5)]]
      rfl rfl).2.1 rfl,
   (heap_index_crossvalidation_amended docScenarioC "VkPhysicalDeviceMemoryProperties" {}
      [JsonValue.objectVal [("size", JsonValue.intVal 100), ("flags", JsonValue.intVal 0)]]
      [JsonValue.objectVal [("propertyFlags", JsonValue.intVal 1), ("heapIndex", JsonValue.intVal 5)]]
      rfl rfl).2.2 0⟩

/-- C3 counterexample: decoding a memory-types array whose single entry is
the empty object over a record whose first type slot holds propertyFlags 7,
heapIndex 2 sets the count to 1 but keeps the old element verbatim, while a
decode of that same entry into a fresh zero element yields the zero record:
the memory-type sequence is merged elementwise in place, not fully replaced
with one freshly decoded element per array entry. -/
theorem repeated_record_not_fully_replaced :
    (GetValueMemoryProperties (JsonValue.objectVal
        [("m", JsonValue.objectVal [("memoryTypes", JsonValue.arrayVal [JsonValue.objectVal []])])])
      "m" { memoryTypeCount := 1,
            memoryTypes := { propertyFlags := 7, heapIndex := 2 } :: List.replicate 31 {} }).1.memoryTypeCount = 1
    ∧ ((GetValueMemoryProperties (JsonValue.objectVal
        [("m", JsonValue.objectVal [("memoryTypes", JsonValue.arrayVal [JsonValue.objectVal []])])])
      "m" { memoryTypeCount := 1,
            memoryTypes := { propertyFlags := 7, heapIndex := 2 } :: List.replicate 31 {} }).1.memoryTypes.getD 0 {})
      = ({ propertyFlags := 7, heapIndex := 2 } : VkMemoryType)
    ∧ GetValueMemoryType (JsonValue.arrayVal [JsonValue.objectVal []]) 0 {} = ({} : VkMemoryType)
    ∧ ({ propertyFlags := 7, heapIndex := 2 } : VkMemoryType) ≠ ({} : VkMemoryType) :=
  ⟨rfl, rfl, rfl, by decide⟩

/-- C3 amended: for each repeated-record section with an array source node
of length n, the count field (or stored sequence length) becomes n; the
queue-family sequence is rebuilt from freshly zero-initialized elements, one
decode per entry, while the memory-heap and memory-type sequences are
updated elementwise in place — entry i is merged into the existing element
i, and slots beyond the source length keep their prior contents.  A
non-array source node (including an absent member, read as null) leaves both
the sequence and its count field untouched, and a non-object memory section
leaves the whole block untouched. -/
theorem repeated_record_replacement_amended (parent qparent : JsonValue)
    (name qname : String) (dest : VkPhysicalDeviceMemoryProperties)
    (qdest : List VkQueueFamilyProperties) (hs ts es : List JsonValue) (i : Nat) :
    ((getMember parent name).typeOf = JsonType.objectValue →
      getMember (getMember parent name) "memoryHeaps" = JsonValue.arrayVal hs →
      (GetValueMemoryProperties parent name dest).1.memoryHeapCount = hs.length
      ∧ ((GetValueMemoryProperties parent name dest).1.memoryHeaps).getD i {} =
          (if i < dest.memoryHeaps.length ∧ i < hs.length then
            GetValueMemoryHeap (JsonValue.arrayVal hs) i (dest.memoryHeaps.getD i {})
          else dest.memoryHeaps.getD i {}))
    ∧ ((getMember parent name).typeOf = JsonType.objectValue →
        (getMember (getMember parent name) "memoryHeaps").typeOf ≠ JsonType.arrayValue →
        (GetValueMemoryProperties parent name dest).1.memoryHeapCount = dest.memoryHeapCount
        ∧ (GetValueMemoryProperties parent name dest).1.memoryHeaps = dest.memoryHeaps)
    ∧ ((getMember parent name).typeOf = JsonType.objectValue →
        getMember (getMember parent name) "memoryTypes" = JsonValue.arrayVal ts →
        (GetValueMemoryProperties parent name dest).1.memoryTypeCount = ts.length
        ∧ ((GetValueMemoryProperties parent name dest).1.memoryTypes).getD i {} =
            (if i < dest.memoryTypes.length ∧ i < ts.length then
              GetValueMemoryType (JsonValue.arrayVal ts) i (dest.memoryTypes.getD i {})
            else dest.memoryTypes.getD i {}))
    ∧ ((getMember parent name).typeOf = JsonType.objectValue →
        (getMember (getMember parent name) "memoryTypes").typeOf ≠ JsonType.arrayValue →
        (GetValueMemoryProperties parent name dest).1.memoryTypeCount = dest.memoryTypeCount
        ∧ (GetValueMemoryProperties parent name dest).1.memoryTypes = dest.memoryTypes)
    ∧ ((getMember parent name).typeOf ≠ JsonType.objectValue →
        GetValueMemoryProperties parent name dest = (dest, []))
    ∧ (getMember qparent qname = JsonValue.arrayVal es →
        (GetArrayQueueFamilyProperties qparent qname qdest).2.length = es.length
        ∧ (GetArrayQueueFamilyProperties qparent qname qdest).2.getD i {} =
            (if i < es.length then
              GetValueQueueFamilyProperties (JsonValue.arrayVal es) i {}
            else ({} : VkQueueFamilyProperties)))
    ∧ ((getMember qparent qname).typeOf ≠ JsonType.arrayValue →
        GetArrayQueueFamilyProperties qparent qname qdest = (-1, qdest)) := by
  refine ⟨?_, ?_, ?_, ?_, ?_, ?_, ?_⟩
  · intro hobj hhs
    obtain ⟨h1, h2⟩ := GetValueMemoryProperties_heaps_spec parent name dest hs hobj hhs
    refine ⟨h1, ?_⟩
    rw [h2, updateElemsFrom_getD]
    simp
  · intro hobj hhno
    exact GetValueMemoryProperties_heaps_noarray parent name dest hobj hhno
  · intro hobj hts
    obtain ⟨h1, h2, _⟩ := GetValueMemoryProperties_types_spec parent name dest ts hobj hts
    refine ⟨h1, ?_⟩
    rw [h2, updateElemsFrom_getD]
    simp
  · intro hobj htno
    obtain ⟨h1, h2, _⟩ := GetValueMemoryProperties_types_noarray parent name dest hobj htno
    exact ⟨h1, h2⟩
  · intro hno
    exact GetValueMemoryProperties_not_object parent name dest hno
  · intro hes
    rw [GetArrayQueueFamilyProperties_array qparent qname qdest es hes]
    exact ⟨by simp, by rw [getD_range_map]⟩
  · intro hno
    exact GetArrayQueueFamilyProperties_not_array qparent qname qdest hno

/-- Witness for the amended C3, on scenario B plus a queue-family document:
counts become the array lengths, the elements are the in-place merges (here
decoded over zeroed slots), and an absent queue-family member leaves the
prior vector untouched with the sentinel -1. -/
theorem repeated_record_replacement_amended_witness :
    ((GetValueMemoryProperties docScenarioB "VkPhysicalDeviceMemoryProperties" {}).1.memoryHeapCount = 1
      ∧ ((GetValueMemoryProperties docScenarioB "VkPhysicalDeviceMemoryProperties" {}).1.memoryHeaps).getD 0 {}
          = ({ size := 100, flags := 0 } : VkMemoryHeap))
    ∧ ((GetValueMemoryProperties docScenarioB "VkPhysicalDeviceMemoryProperties" {}).1.memoryTypeCount = 1
      ∧ ((GetValueMemoryProperties docScenarioB "VkPhysicalDeviceMemoryProperties" {}).1.memoryTypes).getD 0 {}
          = ({ propertyFlags := 1, heapIndex := 0 } : VkMemoryType))
    ∧ ((GetArrayQueueFamilyProperties (JsonValue.objectVal
          [("ArrayOfVkQueueFamilyProperties", JsonValue.arrayVal
            [JsonValue.objectVal [("queueCount", JsonValue.intVal 4)]])])
          "ArrayOfVkQueueFamilyProperties" [{ queueCount := 9 }]).2.length = 1
      ∧ (GetArrayQueueFamilyProperties (JsonValue.objectVal
          [("ArrayOfVkQueueFamilyProperties", JsonValue.arrayVal
            [JsonValue.objectVal [("queueCount", JsonValue.intVal 4)]])])
          "ArrayOfVkQueueFamilyProperties" [{ queueCount := 9 }]).2.getD 0 {}
          = ({ queueCount := 4 } : VkQueueFamilyProperties))
    ∧ (GetArrayQueueFamilyProperties docScenarioB "ArrayOfVkQueueFamilyProperties"
          [{ queueCount := 9 }] = (-1, [{ queueCount := 9 }])) := by
  refine ⟨?_, ?_, ?_, ?_⟩
  · exact (repeated_record_replacement_amended docScenarioB docScenarioB
      "VkPhysicalDeviceMemoryProperties" "q" {} []
      [JsonValue.objectVal [("size", JsonValue.intVal 100), ("flags", JsonValue.intVal 0)]]
      [JsonValue.objectVal [("propertyFlags", JsonValue.intVal 1), ("heapIndex", JsonValue.intVal 0)]]
      [] 0).1 rfl rfl
  · exact (repeated_record_replacement_amended docScenarioB docScenarioB
      "VkPhysicalDeviceMemoryProperties" "q" {} []
      [JsonValue.objectVal [("size", JsonValue.intVal 100), ("flags", JsonValue.intVal 0)]]
      [JsonValue.objectVal [("propertyFlags", JsonValue.intVal 1), ("heapIndex", JsonValue.intVal 0)]]
      [] 0).2.2.1 rfl rfl
  · exact (repeated_record_replacement_amended docScenarioB (JsonValue.objectVal
      [("ArrayOfVkQueueFamilyProperties", JsonValue.arrayVal
        [JsonValue.objectVal [("queueCount", JsonValue.intVal 4)]])])
      "VkPhysicalDeviceMemoryProperties" "ArrayOfVkQueueFamilyProperties" {}
      [{ queueCount := 9 }]
      [JsonValue.objectVal [("size", JsonValue.intVal 100), ("flags", JsonValue.intVal 0)]]
      [JsonValue.objectVal [("propertyFlags", JsonValue.intVal 1), ("heapIndex", JsonValue.intVal 0)]]
      [JsonValue.objectVal [("queueCount", JsonValue.intVal 4)]] 0).2.2.2.2.2.1 rfl
  · exact (repeated_record_replacement_amended docScenarioB docScenarioB
      "VkPhysicalDeviceMemoryProperties" "ArrayOfVkQueueFamilyProperties" {}
      [{ queueCount := 9 }]
      [JsonValue.objectVal [("size", JsonValue.intVal 100), ("flags", JsonValue.intVal 0)]]
      [JsonValue.objectVal [("propertyFlags", JsonValue.intVal 1), ("heapIndex", JsonValue.intVal 0)]]
      [] 0).2.2.2.2.2.2 (by decide)
